import Mathlib

/-
Verification development for the minpaku feasibility pipeline: the
investment simulator (`src/modules/simulation.py`), the progressive
market-price search (`src/modules/airbnb_price_estimator.py`), the zoning
lookup (`src/modules/zoning_checker.py`), the OCR cost extractor
(`src/modules/initial_cost_estimator.py`), the legal-result line parsers
(`src/modules/law_result_formatter.py`) and the geocoding fallback chain
(`src/modules/geocoder.py`).

Modelling conventions, shared by every definition below:
- Python float arithmetic is modelled over ℚ (exact real arithmetic);
  IEEE rounding is not modelled.  `float('inf')` results are modelled as
  `Option` values with `none` standing for infinity.
- Python dicts appear as structures (fixed keys) or association lists
  (open keys); `None` is `Option.none`.
- `try/except` control flow is translated into explicit result values,
  following the source's handler structure; the Lean functions are total
  by construction.
-/

/- ===================================================================
   Part 1: InvestmentSimulator (src/modules/simulation.py)
   =================================================================== -/

/-- Total of an association-list cost mapping, `sum(costs.values())` in
`calculate_initial_investment` (simulation.py line 58). -/
def cost_values_sum (costs : List (String × ℚ)) : ℚ :=
  costs.foldr (fun kv a => kv.2 + a) 0

/-- `sum(v for k, v in costs.items() if k != 'commission_rate')` from
`calculate_annual_operating_costs` (simulation.py line 99): monthly
operating cost items, with the `commission_rate` entry excluded. -/
def monthly_costs_sum (costs : List (String × ℚ)) : ℚ :=
  cost_values_sum (costs.filter (fun kv => kv.1 ≠ "commission_rate"))

/-- Result record of `calculate_annual_revenue` (simulation.py lines 124-159). -/
structure RevenueResult where
  daily_rate : ℚ
  occupancy_rate : ℚ
  actual_operating_days : ℚ
  gross_annual_revenue : ℚ
  commission_rate : ℚ
  commission_amount : ℚ
  annual_revenue : ℚ
  deriving Repr, DecidableEq

/-- `calculate_annual_revenue` (simulation.py lines 124-159): operating days
`365 * occupancy_rate`, gross revenue `daily_rate * days`, commission
subtracted from the gross. -/
def calculate_annual_revenue (daily_rate occupancy_rate commission_rate : ℚ) :
    RevenueResult :=
  let actual_operating_days := 365 * occupancy_rate
  let gross_annual_revenue := daily_rate * actual_operating_days
  let commission_amount := gross_annual_revenue * commission_rate
  { daily_rate := daily_rate
    occupancy_rate := occupancy_rate
    actual_operating_days := actual_operating_days
    gross_annual_revenue := gross_annual_revenue
    commission_rate := commission_rate
    commission_amount := commission_amount
    annual_revenue := gross_annual_revenue - commission_amount }

/-- Result record of `calculate_profit_loss` (simulation.py lines 168-204);
`payback_years = none` models `float('inf')`. -/
structure ProfitResult where
  gross_profit : ℚ
  tax : ℚ
  net_profit : ℚ
  payback_years : Option ℚ
  deriving Repr, DecidableEq

/-- `calculate_profit_loss` (simulation.py lines 168-204): tax is levied only
on a positive pre-tax profit; payback is infinite (`none`) unless the
after-tax profit is positive. -/
def calculate_profit_loss (initial_investment annual_revenue annual_costs
    tax_rate : ℚ) : ProfitResult :=
  let gross_profit := annual_revenue - annual_costs
  let tax := if 0 < gross_profit then gross_profit * tax_rate else 0
  let net_profit := gross_profit - tax
  { gross_profit := gross_profit
    tax := tax
    net_profit := net_profit
    payback_years :=
      if 0 < net_profit then some (initial_investment / net_profit) else none }

/-- `_calculate_breakeven_rate` (simulation.py lines 314-341).  In Python a
zero daily rate raises `ZeroDivisionError`, which the handler turns into
`0.0`; that branch is made explicit here.  `initial_investment` and
`tax_rate` are accepted and ignored exactly as in the source. -/
def calculate_breakeven_rate (initial_investment annual_costs daily_rate
    tax_rate : ℚ) : ℚ :=
  if daily_rate = 0 then 0
  else min (annual_costs / daily_rate / 365) 1

/-- One row of `simulation_results` built by `run_simulation`
(simulation.py lines 275-284). -/
structure SimulationRow where
  occupancy_rate : ℚ
  annual_revenue : ℚ
  annual_costs : ℚ
  gross_profit : ℚ
  tax : ℚ
  net_profit : ℚ
  payback_years : Option ℚ
  actual_operating_days : ℚ
  deriving Repr, DecidableEq

/-- Result of `run_simulation` (simulation.py lines 213-312).  In the model
the arithmetic sub-steps are total, so only the success shape of the source
is reachable; `error` is kept to mirror the dict contract. -/
structure SimulationOutcome where
  success : Bool
  error : Option String
  initial_total : ℚ
  annual_costs : ℚ
  simulation_results : List SimulationRow
  breakeven_rate : ℚ
  deriving Repr, DecidableEq

/-- Body of the per-occupancy-rate loop of `run_simulation`
(simulation.py lines 260-284): revenue, then profit/loss, assembled into one
result row. -/
def simulation_row (initial_total annual_costs daily_rate tax_rate
    commission_rate r : ℚ) : SimulationRow :=
  let rev := calculate_annual_revenue daily_rate r commission_rate
  let pl := calculate_profit_loss initial_total rev.annual_revenue
    annual_costs tax_rate
  { occupancy_rate := r
    annual_revenue := rev.annual_revenue
    annual_costs := annual_costs
    gross_profit := pl.gross_profit
    tax := pl.tax
    net_profit := pl.net_profit
    payback_years := pl.payback_years
    actual_operating_days := rev.actual_operating_days }

/-- `run_simulation` (simulation.py lines 213-312): initial total and annual
operating cost once, then one row per swept occupancy rate, then the
breakeven rate.  Default-argument resolution (lines 234-245) happens at the
call site and is not modelled. -/
def run_simulation (initial_costs operating_costs : List (String × ℚ))
    (daily_rate : ℚ) (occupancy_rates : List ℚ)
    (tax_rate commission_rate : ℚ) : SimulationOutcome :=
  let initial_total := cost_values_sum initial_costs
  let annual_costs := monthly_costs_sum operating_costs * 12
  let rows := occupancy_rates.map
    (simulation_row initial_total annual_costs daily_rate tax_rate
      commission_rate)
  { success := true
    error := none
    initial_total := initial_total
    annual_costs := annual_costs
    simulation_results := rows
    breakeven_rate :=
      calculate_breakeven_rate initial_total annual_costs daily_rate tax_rate }

/-- The cost dictionary of property P4: deposit 100000, key money 50000,
brokerage fee 0. -/
def p4_initial_costs : List (String × ℚ) :=
  [("deposit", 100000), ("key_money", 50000), ("brokerage_fee", 0)]

/-- Helper: the source's conditional tax (`tax = gp * rate if gp > 0 else 0`,
simulation.py line 187) agrees with the spec's `max(gp, 0) * rate`. -/
theorem tax_if_eq_max (gp rate : ℚ) :
    (if 0 < gp then gp * rate else 0) = max gp 0 * rate := by
  rcases lt_or_le 0 gp with h | h
  · rw [if_pos h, max_eq_left h.le]
  · rw [if_neg (not_lt.mpr h), max_eq_right h, zero_mul]

/-- C4: for every occupancy rate r in the swept list, the simulation produces
(at the same position) a row whose operating days are `365 * r`, whose net
revenue is `daily_rate * 365 * r * (1 - commission_rate)`, whose annual cost
is `12 * Σ monthly items (commission_rate excluded)`, whose gross profit is
net revenue minus annual cost, whose tax is `max(gross_profit, 0) * tax_rate`,
whose net profit is gross profit minus tax, and whose payback is
`initial_total / net_profit` when the net profit is positive and infinity
(`none`) otherwise; on the P4 inputs (initial total 150000, daily rate 15000,
r = 0.5, commission 0.15, tax 0.1, no operating costs) the net profit is
2094187.5 and the payback is within 0.0001 of 0.0716. -/
theorem simulation_rows_follow_spec_formulas :
    (∀ (initial_costs operating_costs : List (String × ℚ))
      (daily_rate : ℚ) (occupancy_rates : List ℚ)
      (tax_rate commission_rate : ℚ) (i : ℕ) (r : ℚ),
      occupancy_rates[i]? = some r →
      ∃ row, (run_simulation initial_costs operating_costs daily_rate
          occupancy_rates tax_rate commission_rate).simulation_results[i]? =
          some row ∧
        row.actual_operating_days = 365 * r ∧
        row.annual_revenue = daily_rate * 365 * r * (1 - commission_rate) ∧
        row.annual_costs = 12 * monthly_costs_sum operating_costs ∧
        row.gross_profit = row.annual_revenue - row.annual_costs ∧
        row.tax = max row.gross_profit 0 * tax_rate ∧
        row.net_profit = row.gross_profit - row.tax ∧
        row.payback_years = (if 0 < row.net_profit then
          some (cost_values_sum initial_costs / row.net_profit) else none)) ∧
    (∀ row ∈ (run_simulation p4_initial_costs [] 15000 [(0.5 : ℚ)]
        0.1 0.15).simulation_results,
      row.net_profit = 2094187.5 ∧
      ∃ p, row.payback_years = some p ∧ |p - 0.0716| < 0.0001) := by
  constructor
  · intro initial_costs operating_costs daily_rate occupancy_rates
      tax_rate commission_rate i r hi
    refine ⟨simulation_row (cost_values_sum initial_costs)
      (monthly_costs_sum operating_costs * 12) daily_rate tax_rate
      commission_rate r, ?_, ?_, ?_, ?_, ?_, ?_, ?_, ?_⟩
    · simp only [run_simulation, List.getElem?_map, hi]
      rfl
    all_goals
      simp only [simulation_row, calculate_annual_revenue,
        calculate_profit_loss]
    all_goals
      first
      | rfl
      | exact tax_if_eq_max _ _
      | ring1
  · intro row hrow
    have hr : row =
        { occupancy_rate := 0.5
          annual_revenue := 2326875
          annual_costs := 0
          gross_profit := 2326875
          tax := 232687.5
          net_profit := 2094187.5
          payback_years := some (800 / 11169)
          actual_operating_days := 182.5 } := by
      have : (run_simulation p4_initial_costs [] 15000 [(0.5 : ℚ)]
          0.1 0.15).simulation_results =
          [{ occupancy_rate := 0.5
             annual_revenue := 2326875
             annual_costs := 0
             gross_profit := 2326875
             tax := 232687.5
             net_profit := 2094187.5
             payback_years := some (800 / 11169)
             actual_operating_days := 182.5 }] := by
        norm_num [run_simulation, simulation_row, calculate_annual_revenue,
          calculate_profit_loss, p4_initial_costs, cost_values_sum,
          monthly_costs_sum, List.filter]
      rw [this, List.mem_singleton] at hrow
      exact hrow
    rw [hr]
    refine ⟨rfl, 800 / 11169, rfl, ?_⟩
    rw [abs_lt]
    constructor <;> norm_num

/-- C5: the breakeven occupancy returned by the simulation equals
`annual_cost / (daily_rate * 365)` clamped to at most 1, commission and tax
playing no part; on annual cost 600000 and daily rate 10000 it is 12/73,
within 0.0001 of 0.1644. -/
theorem breakeven_rate_follows_spec_formula :
    (∀ initial_investment annual_costs daily_rate tax_rate : ℚ,
      daily_rate ≠ 0 →
      calculate_breakeven_rate initial_investment annual_costs daily_rate
        tax_rate = min (annual_costs / (daily_rate * 365)) 1) ∧
    ((run_simulation [] [("rent", 50000)] 10000 [] 0.1 0.15).breakeven_rate =
      12 / 73 ∧ |(12 / 73 : ℚ) - 0.1644| < 0.0001) := by
  constructor
  · intro initial_investment annual_costs daily_rate tax_rate h
    rw [calculate_breakeven_rate, if_neg h, div_div]
  · constructor
    · have hm : monthly_costs_sum [("rent", (50000 : ℚ))] = 50000 := by
        simp [monthly_costs_sum, cost_values_sum]
      norm_num [run_simulation, calculate_breakeven_rate, cost_values_sum,
        hm, min_def]
    · rw [abs_lt]
      constructor <;> norm_num

/-- Witness for `breakeven_rate_follows_spec_formula`: the universal part
applied at daily rate 10000. -/
theorem breakeven_rate_follows_spec_formula_witness :
    (10000 : ℚ) ≠ 0 ∧
    calculate_breakeven_rate 0 600000 10000 0.1 =
      min ((600000 : ℚ) / (10000 * 365)) 1 :=
  ⟨by norm_num,
    breakeven_rate_follows_spec_formula.1 0 600000 10000 0.1 (by norm_num)⟩

/-- Witness for `simulation_rows_follow_spec_formulas`: the universal part
applied to the P4 inputs at index 0. -/
theorem simulation_rows_follow_spec_formulas_witness :
    (([(0.5 : ℚ)] : List ℚ)[0]? = some (0.5 : ℚ)) ∧
    (∃ row, (run_simulation p4_initial_costs [] 15000 [(0.5 : ℚ)]
        0.1 0.15).simulation_results[0]? = some row ∧
      row.actual_operating_days = (365 * 0.5 : ℚ) ∧
      row.annual_revenue = (15000 * 365 * 0.5 * (1 - 0.15) : ℚ) ∧
      row.annual_costs = 12 * monthly_costs_sum [] ∧
      row.gross_profit = row.annual_revenue - row.annual_costs ∧
      row.tax = max row.gross_profit 0 * (0.1 : ℚ) ∧
      row.net_profit = row.gross_profit - row.tax ∧
      row.payback_years = (if 0 < row.net_profit then
        some (cost_values_sum p4_initial_costs / row.net_profit) else none)) :=
  ⟨rfl, simulation_rows_follow_spec_formulas.1 p4_initial_costs [] 15000
    [(0.5 : ℚ)] 0.1 0.15 0 0.5 rfl⟩

/- ===================================================================
   Part 2: Python-style string primitives shared by the embeddings

   The source leans on Python string methods (`strip`, `split`,
   `startswith`, `replace`, `upper`, `lower`, the `in` operator) and a
   handful of fixed regular expressions.  They are implemented here over
   `List Char` and wrapped for `String`.  `str.strip()` is modelled with
   `Char.isWhitespace`; `float()` / `int()` are modelled on the digit-form
   subset that the call sites can produce.
   =================================================================== -/

/-- Leading-whitespace removal, one side of Python `str.strip()`. -/
def dropLeadingWs : List Char → List Char
  | [] => []
  | c :: cs => if c.isWhitespace then dropLeadingWs cs else c :: cs

/-- Python `str.strip()` over a character list. -/
def stripChars (l : List Char) : List Char :=
  ((dropLeadingWs (dropLeadingWs l).reverse)).reverse

/-- Python `str.strip()`. -/
def pyStrip (s : String) : String :=
  ⟨stripChars s.data⟩

/-- `l` begins with `p` (Python `str.startswith` over lists). -/
def startsWithL : List Char → List Char → Bool
  | _, [] => true
  | [], _ :: _ => false
  | c :: cs, p :: ps => c = p && startsWithL cs ps

/-- Python `str.startswith`. -/
def pyStartsWith (s p : String) : Bool :=
  startsWithL s.data p.data

/-- Python `pat in s` (substring test) over lists. -/
def containsSubL : List Char → List Char → Bool
  | [], pat => pat.isEmpty
  | c :: cs, pat => startsWithL (c :: cs) pat || containsSubL cs pat

/-- Python `pat in s` (substring test). -/
def pyContains (s pat : String) : Bool :=
  containsSubL s.data pat.data

/-- Deletion loop of Python `str.replace(pat, '')`: at each position, if the
non-empty pattern starts here, skip it, else keep the character.  The fuel
argument (instantiated with the list length, which bounds the number of
steps) keeps the recursion structural. -/
def removeAllGo (pat : List Char) : ℕ → List Char → List Char
  | 0, l => l
  | _, [] => []
  | fuel + 1, c :: cs =>
    if startsWithL (c :: cs) pat then
      removeAllGo pat fuel (cs.drop (pat.length - 1))
    else c :: removeAllGo pat fuel cs

/-- Python `str.replace(pat, '')` over lists: delete every (left-to-right,
non-overlapping) occurrence of `pat`. -/
def removeAllL (pat l : List Char) : List Char :=
  if pat.isEmpty then l else removeAllGo pat l.length l

/-- Python `str.replace(pat, '')`. -/
def pyRemoveAll (s pat : String) : String :=
  ⟨removeAllL pat.data s.data⟩

/-- Python `str.split('\n')` over lists; always returns at least one piece. -/
def splitOnNl : List Char → List (List Char)
  | [] => [[]]
  | c :: cs =>
    let r := splitOnNl cs
    if c = '\n' then [] :: r
    else
      match r with
      | [] => [[c]]
      | h :: t => (c :: h) :: t

/-- Python `str.split('\n')`. -/
def splitLines (s : String) : List String :=
  (splitOnNl s.data).map (⟨·⟩)

/-- Python `str.upper()` (ASCII letters; others unchanged). -/
def pyUpper (s : String) : String :=
  ⟨s.data.map Char.toUpper⟩

/-- Python `str.lower()` (ASCII letters; others unchanged). -/
def pyLower (s : String) : String :=
  ⟨s.data.map Char.toLower⟩

/-- Value of an ASCII digit string (most significant first). -/
def digitsToNat (l : List Char) : ℕ :=
  l.foldl (fun a c => 10 * a + (c.toNat - 48)) 0

/-- `_extract_number` (airbnb_price_estimator.py lines 367-377): delete every
non-digit, then `int`; an all-non-digit string yields 0 through the
`except`. -/
def extract_number (s : String) : ℕ :=
  let ds := s.data.filter Char.isDigit
  if ds.isEmpty then 0 else digitsToNat ds

/-- Digit-form core of Python `float()`: `digits`, `digits.`, `.digits` or
`digits.digits`. -/
def pyFloatCore (l : List Char) : Option ℚ :=
  let intPart := l.takeWhile Char.isDigit
  match l.dropWhile Char.isDigit with
  | [] => if intPart.isEmpty then none else some (digitsToNat intPart)
  | '.' :: frac =>
    if frac.all Char.isDigit ∧ ¬(intPart.isEmpty ∧ frac.isEmpty) then
      some ((digitsToNat intPart : ℚ) +
        (digitsToNat frac : ℚ) / 10 ^ frac.length)
    else none
  | _ => none

/-- Python `float()` on the digit forms the call sites produce (optional
sign, digits, optional single decimal point); `none` models `ValueError`.
Exponents, `inf`/`nan` and underscores are outside the modelled subset. -/
def pyFloat (l : List Char) : Option ℚ :=
  match l with
  | '+' :: r => pyFloatCore r
  | '-' :: r => (pyFloatCore r).map Neg.neg
  | _ => pyFloatCore l

/-- `_extract_price_number` (airbnb_price_estimator.py lines 342-352): delete
`¥`, `,` and `円`, strip, then `float()`, with 0 on failure. -/
def extract_price_number (s : String) : ℚ :=
  let cleaned := stripChars (removeAllL ['円']
    (removeAllL [','] (removeAllL ['¥'] s.data)))
  match pyFloat cleaned with
  | some q => q
  | none => 0

/-- First maximal run of `[0-9,]` characters in `l`, with the remainder that
follows it. -/
def findDigitCommaRun : List Char → Option (List Char × List Char)
  | [] => none
  | c :: cs =>
    if c.isDigit || c = ',' then
      some ((c :: cs).takeWhile (fun d => d.isDigit || d = ','),
        (c :: cs).dropWhile (fun d => d.isDigit || d = ','))
    else findDigitCommaRun cs

/-- `_extract_price_range` (airbnb_price_estimator.py lines 354-365):
`re.search` of `¥?([0-9,]+).*?¥?([0-9,]+)` with backtracking.  With two
separate `[0-9,]` runs the groups are the first two runs; with a single run
of length ≥ 2 the greedy first group backtracks one character so the last
character becomes the second group; otherwise there is no match and the
source returns `(0.0, 0.0)`.  Each group then goes through
`_extract_price_number`. -/
def extract_price_range (s : String) : ℚ × ℚ :=
  match findDigitCommaRun s.data with
  | none => (0, 0)
  | some (r1, rest) =>
    match findDigitCommaRun rest with
    | some (r2, _) => (extract_price_number ⟨r1⟩, extract_price_number ⟨r2⟩)
    | none =>
      if 2 ≤ r1.length then
        (extract_price_number ⟨r1.dropLast⟩,
          extract_price_number ⟨r1.drop (r1.length - 1)⟩)
      else (0, 0)

/-- Python 3 `round()` to an integer: nearest, ties to even. -/
def pyRound (q : ℚ) : ℤ :=
  let f := ⌊q⌋
  if q - f < 1 / 2 then f
  else if 1 / 2 < q - f then f + 1
  else if f % 2 = 0 then f else f + 1

/- ===================================================================
   Part 3: AirbnbPriceEstimator (src/modules/airbnb_price_estimator.py)

   `estimate_price` runs a bounded while-loop (max_retries = 3, lines
   564-755) over the three-level geographic ladder and calls
   `_call_gemini` once per iteration.  The external oracle is modelled
   per level as the outcomes of up to three `generate_content` transport
   attempts inside `_call_gemini` (dict-format tools call line 123,
   plain retry line 138, second plain retry line 152).  A successful
   response text is modelled by the structured data the JSON extraction
   of lines 635-685 would recover from it (`ParsedResponse`); successful
   texts are assumed to be template-shaped, i.e. they do not start with
   the literal `エラー`.  Prompt construction (lines 408-562) only
   affects oracle input and is not modelled.
   =================================================================== -/

/-- One listing object of the property-list JSON array
(airbnb_price_estimator.py lines 694-708): only the fields the validity
gate reads are modelled. -/
structure Listing where
  title : String
  validated : Bool
  price_per_night : Option ℚ
  deriving Repr, DecidableEq

/-- The aggregate JSON object (lines 660-685, 758-866).  `median_str` is the
`平均単価_中央値` value, present in every captured summary because the
capture patterns require that key; the other fields model `価格範囲`,
`宿泊件数`, `人気度メモ` and `推定根拠`, `none` when the key is absent.
Values are modelled as strings, the shape the prompt instructs. -/
structure SearchSummary where
  median_str : String
  range_str : Option String
  count_str : Option String
  memo : Option String
  basis : Option String
  deriving Repr, DecidableEq

/-- What the JSON extraction (lines 635-685) recovers from one successful
oracle response text: the property-list array (empty when no array was
found) and the aggregate summary object (if found). -/
structure ParsedResponse where
  listings : List Listing
  summary : Option SearchSummary
  deriving Repr, DecidableEq

/-- Outcome of a single `generate_content` transport attempt inside
`_call_gemini`: success (with the payload its text parses to), success with
whitespace-only text, or an exception carrying its message string. -/
inductive GenOutcome where
  | ok (payload : ParsedResponse)
  | blank
  | exc (msg : String)
  deriving Repr, DecidableEq

/-- Oracle behaviour for one ladder level: the outcomes of the up-to-three
transport attempts `_call_gemini` may make for that prompt. -/
abbrev LevelBehavior := GenOutcome × GenOutcome × GenOutcome

/-- The quota test applied to exception messages inside `_call_gemini`
(lines 131, 146, 220): `"429" in s or "quota" in s.lower() or "rate" in
s.lower()`. -/
def is_quota_error_str (s : String) : Bool :=
  pyContains s "429" || pyContains (pyLower s) "quota" ||
    pyContains (pyLower s) "rate"

/-- The quota test `estimate_price` applies to a returned response text
(line 608), which additionally looks for the katakana `クォータ`. -/
def is_quota_response (s : String) : Bool :=
  pyContains s "429" || pyContains (pyLower s) "quota" ||
    pyContains (pyLower s) "rate" || pyContains s "クォータ"

/-- `_call_gemini`'s return text when the estimator is unavailable (line 66)
and the text `estimate_price` compares against on line 610. -/
def unavailableText : String := "Gemini APIが利用できません"

/-- The `エラー`-prefixed quota message returned when a quota error is
detected at transport attempt 1 or 2 (lines 146-150). -/
def quotaRefusedText : String :=
  "エラー: Gemini APIのクォータ制限に達しています。しばらく待ってから再試行してください。"

/-- The quota message of the outer handler (lines 220-225); note it does not
start with `エラー`. -/
def plainQuotaText : String :=
  "Gemini APIのクォータ制限に達しました。無料プランでは1日50リクエストまでです。しばらく待ってから再度お試しください。"

/-- What `_call_gemini` hands back to `estimate_price` for one level, after
its internal retries: classified by which return statement produced it. -/
inductive CallOut where
  | unavailable
  | quotaRefused
  | plainQuota
  | plainError (msg : String)
  | blankText
  | parsed (payload : ParsedResponse)
  deriving Repr, DecidableEq

/-- The literal response text of a `CallOut`; for `parsed` the raw JSON text
is not modelled (`none`). -/
def CallOut.text : CallOut → Option String
  | .unavailable => some unavailableText
  | .quotaRefused => some quotaRefusedText
  | .plainQuota => some plainQuotaText
  | .plainError msg => some ("Gemini API呼び出しエラー: " ++ msg)
  | .blankText => some ""
  | .parsed _ => none

/-- `_call_gemini` with `use_google_search=True` (lines 54-229), per level:
if the session flag is off, return the unavailable text without touching the
oracle; otherwise attempt the dict-format call, falling back twice on
non-quota exceptions; a quota exception at attempt 1 or 2 is caught at line
143 and surfaced with the `エラー` prefix, at attempt 3 it reaches the outer
handler (line 217) and is surfaced without the prefix; all quota paths clear
the availability flag.  `genai.configure` and model construction (lines
69-101) are assumed to succeed.  Returns (outcome, new availability flag,
number of `generate_content` calls made). -/
def callGemini (avail : Bool) (b : LevelBehavior) : CallOut × Bool × ℕ :=
  match avail with
  | false => (.unavailable, false, 0)
  | true =>
    match b.1 with
    | .ok p => (.parsed p, true, 1)
    | .blank => (.blankText, true, 1)
    | .exc m1 =>
      if is_quota_error_str m1 then (.quotaRefused, false, 1)
      else
        match b.2.1 with
        | .ok p => (.parsed p, true, 2)
        | .blank => (.blankText, true, 2)
        | .exc m2 =>
          if is_quota_error_str m2 then (.quotaRefused, false, 2)
          else
            match b.2.2 with
            | .ok p => (.parsed p, true, 3)
            | .blank => (.blankText, true, 3)
            | .exc m3 =>
              if is_quota_error_str m3 then (.plainQuota, false, 3)
              else (.plainError m3, true, 3)

/-- The placeholder titles rejected by the validity gate (line 704). -/
def invalid_titles : List String :=
  ["該当物件なし", "N/A", "", "物件が見つかりませんでした"]

/-- Per-listing validity (lines 694-708): a truthy, non-placeholder title
and (`validated` or a positive nightly price). -/
def listing_is_valid (l : Listing) : Bool :=
  l.title ≠ "" && !(invalid_titles.contains l.title) &&
    (l.validated ||
      (match l.price_per_night with
       | some p => decide (0 < p)
       | none => false))

/-- Summary-based validity via `宿泊件数` (lines 719-723): the key holds a
truthy string whose digits give a positive count. -/
def summary_count_valid (s : SearchSummary) : Bool :=
  match s.count_str with
  | some c => c ≠ "" && decide (0 < extract_number c)
  | none => false

/-- Summary-based validity via `平均単価_中央値` (lines 726-731): a truthy
string, not a placeholder after upper-casing, extracting to a positive
price. -/
def summary_median_valid (s : SearchSummary) : Bool :=
  s.median_str ≠ "" &&
    !(["¥0", "0", "N/A", ""].contains (pyUpper s.median_str)) &&
    decide (0 < extract_price_number s.median_str)

/-- The full validity gate of one level (lines 687-733): some listing is
valid, or the summary reports a positive count or a positive median. -/
def response_is_valid (p : ParsedResponse) : Bool :=
  p.listings.any listing_is_valid ||
    (match p.summary with
     | some s => summary_count_valid s || summary_median_valid s
     | none => false)

/-- The estimator's result dict; `none` fields model `None` values / absent
keys of the failure dicts. -/
structure EstimateResult where
  success : Bool
  error : Option String
  average_price_median : Option ℚ
  average_price_median_str : Option String
  price_range : Option String
  min_price : Option ℚ
  max_price : Option ℚ
  property_count : Option ℕ
  popularity_memo : Option String
  search_level : Option String
  deriving Repr, DecidableEq

/-- Observable cost of one `estimate_price` run: `_call_gemini` invocations
made by the retry loop, `generate_content` calls made in total, the level
labels attempted in order, and the availability flag left in the session. -/
structure SearchStats where
  queries : ℕ
  oracle_calls : ℕ
  levels_tried : List String
  avail_end : Bool
  deriving Repr, DecidableEq

/-- A failure dict (lines 390-398, 613-620, 626-633): success false, the
response text as error, data fields `None`. -/
def fail_result (err : String) : EstimateResult :=
  { success := false, error := some err, average_price_median := none,
    average_price_median_str := none, price_range := none, min_price := none,
    max_price := none, property_count := none, popularity_memo := none,
    search_level := none }

/-- The after-loop result construction (lines 758-896).  With a captured
summary this is the success dict of lines 851-866 (median forced to zero when
the count is zero or the median extracted to zero, range defaults and `N/A`
replacement as on lines 761-791); with no summary it is the zero-valued
success dict of lines 881-896. -/
def finalize_success (summary : Option SearchSummary) (level : Option String) :
    EstimateResult :=
  match summary with
  | none =>
    { success := true, error := none, average_price_median := some 0,
      average_price_median_str := some "¥0", price_range := some "¥0〜¥0",
      min_price := some 0, max_price := some 0, property_count := some 0,
      popularity_memo := some "物件が見つかりませんでした",
      search_level := none }
  | some s =>
    let median_price_str := if s.median_str = "" then "¥0" else s.median_str
    let median0 := if pyUpper median_price_str = "N/A" then 0
      else extract_price_number median_price_str
    let property_count_str := match s.count_str with
      | some c => if c = "" then "0件" else c
      | none => "0件"
    let property_count := extract_number property_count_str
    let median := if property_count = 0 ∨ median0 = 0 then 0 else median0
    let range0 := match s.range_str with
      | some r => if r = "" then "¥0〜¥0" else r
      | none => "¥0〜¥0"
    let price_range_str := if pyUpper range0 = "N/A" then "¥0〜¥0" else range0
    { success := true, error := none,
      average_price_median := some median,
      average_price_median_str := some median_price_str,
      price_range := some price_range_str,
      min_price := some (extract_price_range price_range_str).1,
      max_price := some (extract_price_range price_range_str).2,
      property_count := some property_count,
      popularity_memo := some ((s.memo).getD ""),
      search_level := level }

/-- The ladder labels, in attempt order (lines 582, 586, 593). -/
def search_levels : List String := ["町名", "市または区", "広域"]

/-- Third loop iteration (retry_count = 2, the last): an error-branch text
(line 610) returns a failure; a quota-signalling `エラー`-prefixed text
returns the quota failure; any parsed-but-invalid outcome falls out of the
loop into the after-loop construction with this level's summary. -/
def estimate_level3 (avail : Bool) (b2 : LevelBehavior) (st0 : SearchStats) :
    EstimateResult × SearchStats :=
  let c := callGemini avail b2
  let st : SearchStats := ⟨st0.queries + 1, st0.oracle_calls + c.2.2,
    st0.levels_tried ++ ["広域"], c.2.1⟩
  match c.1 with
  | .quotaRefused => (fail_result quotaRefusedText, st)
  | .unavailable => (fail_result unavailableText, st)
  | .blankText => (fail_result "", st)
  | .plainQuota => (finalize_success none none, st)
  | .plainError _ => (finalize_success none none, st)
  | .parsed p =>
    if response_is_valid p then (finalize_success p.summary (some "広域"), st)
    else (finalize_success p.summary none, st)

/-- Second loop iteration (retry_count = 1): a quota-signalling
`エラー`-prefixed text aborts with a failure; a valid parsed response breaks
out successfully; every other outcome advances to the third level. -/
def estimate_level2 (avail : Bool) (b1 b2 : LevelBehavior)
    (st0 : SearchStats) : EstimateResult × SearchStats :=
  let c := callGemini avail b1
  let st : SearchStats := ⟨st0.queries + 1, st0.oracle_calls + c.2.2,
    st0.levels_tried ++ ["市または区"], c.2.1⟩
  match c.1 with
  | .quotaRefused => (fail_result quotaRefusedText, st)
  | .parsed p =>
    if response_is_valid p then
      (finalize_success p.summary (some "市または区"), st)
    else estimate_level3 c.2.1 b2 st
  | _ => estimate_level3 c.2.1 b2 st

/-- `estimate_price` (lines 379-920) over the oracle behaviours of the three
ladder levels: the early unavailable return (lines 390-398), then the
three-iteration retry loop.  Address and area only shape the prompts and the
derived occupancy, which the oracle model absorbs. -/
def estimate_price (avail0 : Bool) (b0 b1 b2 : LevelBehavior) :
    EstimateResult × SearchStats :=
  match avail0 with
  | false => (fail_result unavailableText, ⟨0, 0, [], false⟩)
  | true =>
    let c := callGemini true b0
    let st : SearchStats := ⟨1, c.2.2, ["町名"], c.2.1⟩
    match c.1 with
    | .quotaRefused => (fail_result quotaRefusedText, st)
    | .parsed p =>
      if response_is_valid p then (finalize_success p.summary (some "町名"), st)
      else estimate_level2 c.2.1 b1 b2 st
    | _ => estimate_level2 c.2.1 b1 b2 st

/-- The outcome `_call_gemini` produces for a level called with an available
session. -/
def level_outcome (b : LevelBehavior) : CallOut :=
  (callGemini true b).1

/-- Whether a level (called with an available session) passes the validity
gate: its text parsed and the parsed payload is valid. -/
def level_valid (b : LevelBehavior) : Bool :=
  match level_outcome b with
  | .parsed p => response_is_valid p
  | _ => false

/-- A level outcome that neither aborts nor satisfies the gate, so the loop
moves on to the next level with the session still available. -/
def level_advances (b : LevelBehavior) : Prop :=
  (callGemini true b).2.1 = true ∧ level_valid b = false

/-- Exhaustive case split for `_call_gemini` under an available session:
parsed text, blank text, or a plain API-error text keep the session
available; quota detection at attempt 1 or 2 yields the `エラー`-prefixed
refusal; quota detection at attempt 3 yields the unprefixed message after
three transport calls.  In every case the availability flag is cleared
exactly on the quota paths. -/
theorem callGemini_cases (b : LevelBehavior) :
    (∃ p g, callGemini true b = (CallOut.parsed p, true, g)) ∨
    (∃ g, callGemini true b = (CallOut.blankText, true, g)) ∨
    (∃ m g, callGemini true b = (CallOut.plainError m, true, g)) ∨
    (∃ g, callGemini true b = (CallOut.quotaRefused, false, g)) ∨
    callGemini true b = (CallOut.plainQuota, false, 3) := by
  rcases b with ⟨o1, o2, o3⟩
  cases o1 with
  | ok p => exact Or.inl ⟨p, 1, rfl⟩
  | blank => exact Or.inr (Or.inl ⟨1, rfl⟩)
  | exc m1 =>
    cases hq1 : is_quota_error_str m1 with
    | true =>
      exact Or.inr (Or.inr (Or.inr (Or.inl ⟨1, by simp [callGemini, hq1]⟩)))
    | false =>
      cases o2 with
      | ok p => exact Or.inl ⟨p, 2, by simp [callGemini, hq1]⟩
      | blank => exact Or.inr (Or.inl ⟨2, by simp [callGemini, hq1]⟩)
      | exc m2 =>
        cases hq2 : is_quota_error_str m2 with
        | true =>
          exact Or.inr (Or.inr (Or.inr (Or.inl
            ⟨2, by simp [callGemini, hq1, hq2]⟩)))
        | false =>
          cases o3 with
          | ok p => exact Or.inl ⟨p, 3, by simp [callGemini, hq1, hq2]⟩
          | blank => exact Or.inr (Or.inl ⟨3, by simp [callGemini, hq1, hq2]⟩)
          | exc m3 =>
            cases hq3 : is_quota_error_str m3 with
            | true =>
              exact Or.inr (Or.inr (Or.inr (Or.inr
                (by simp [callGemini, hq1, hq2, hq3]))))
            | false =>
              exact Or.inr (Or.inr (Or.inl
                ⟨m3, 3, by simp [callGemini, hq1, hq2, hq3]⟩))

/-- Sanity check tying the constructor branching of `estimate_price` to the
string tests of line 608/610: both quota messages signal quota, the
`エラー` prefix is exactly on the refusal message, and the unavailable text
does not signal quota. -/
theorem callout_text_checks :
    is_quota_response quotaRefusedText = true ∧
    pyStartsWith quotaRefusedText "エラー" = true ∧
    is_quota_response plainQuotaText = true ∧
    pyStartsWith plainQuotaText "エラー" = false ∧
    is_quota_response unavailableText = false ∧
    pyStartsWith unavailableText "エラー" = false := by
  refine ⟨?_, rfl, ?_, rfl, rfl, rfl⟩ <;> decide

/-- The stats component of the last ladder iteration: one more query, the
wide-area label appended, the availability flag as `_call_gemini` left it,
whatever the outcome. -/
theorem estimate_level3_snd (avail : Bool) (b2 : LevelBehavior)
    (st : SearchStats) :
    (estimate_level3 avail b2 st).2 =
      ⟨st.queries + 1, st.oracle_calls + (callGemini avail b2).2.2,
        st.levels_tried ++ ["広域"], (callGemini avail b2).2.1⟩ := by
  rcases hc : callGemini avail b2 with ⟨o, a, g⟩
  cases o <;>
    simp only [estimate_level3, hc] <;>
    first
    | rfl
    | (split <;> rfl)

/-- Stats of the second-plus-third iterations when neither signals quota:
one more query when the second level is valid, two otherwise, with the
matching ladder labels. -/
theorem estimate_level2_stats (b1 b2 : LevelBehavior) (st0 : SearchStats)
    (h1 : (callGemini true b1).2.1 = true) :
    (estimate_level2 true b1 b2 st0).2.queries =
      (if level_valid b1 then st0.queries + 1 else st0.queries + 2) ∧
    (estimate_level2 true b1 b2 st0).2.levels_tried =
      (if level_valid b1 then st0.levels_tried ++ ["市または区"]
       else st0.levels_tried ++ ["市または区", "広域"]) := by
  rcases callGemini_cases b1 with ⟨p, g, he⟩ | ⟨g, he⟩ | ⟨m, g, he⟩ |
    ⟨g, he⟩ | he
  · have hv : level_valid b1 = response_is_valid p := by
      simp [level_valid, level_outcome, he]
    cases hp : response_is_valid p with
    | true =>
      simp [estimate_level2, he, hv, hp]
    | false =>
      simp only [estimate_level2, he, hp, hv, Bool.false_eq_true, if_false]
      rw [estimate_level3_snd]
      simp
  · have hv : level_valid b1 = false := by
      simp [level_valid, level_outcome, he]
    simp only [estimate_level2, he, hv, Bool.false_eq_true, if_false]
    rw [estimate_level3_snd]
    simp
  · have hv : level_valid b1 = false := by
      simp [level_valid, level_outcome, he]
    simp only [estimate_level2, he, hv, Bool.false_eq_true, if_false]
    rw [estimate_level3_snd]
    simp
  · rw [he] at h1
    simp at h1
  · rw [he] at h1
    simp at h1

/-- C1: for every address and optional area (absorbed into the per-level
oracle behaviours) and any oracle behaviour that never signals quota, the
search attempts the town / city-or-ward / wide-area ladder in strict order,
issues at most 3 search-oracle queries (one `_call_gemini` prompt submission
per level), and issues exactly k queries where k is the 1-indexed first
level whose response passes the validity gate, or 3 when none does. -/
theorem progressive_search_ladder_and_call_count
    (b0 b1 b2 : LevelBehavior)
    (h0 : (callGemini true b0).2.1 = true)
    (h1 : (callGemini true b1).2.1 = true)
    (h2 : (callGemini true b2).2.1 = true) :
    (estimate_price true b0 b1 b2).2.queries ≤ 3 ∧
    (estimate_price true b0 b1 b2).2.queries =
      (if level_valid b0 then 1 else if level_valid b1 then 2 else 3) ∧
    (estimate_price true b0 b1 b2).2.levels_tried =
      search_levels.take (estimate_price true b0 b1 b2).2.queries := by
  have main : ∀ st0 : SearchStats,
      (estimate_level2 true b1 b2 st0).2.queries =
        (if level_valid b1 then st0.queries + 1 else st0.queries + 2) ∧
      (estimate_level2 true b1 b2 st0).2.levels_tried =
        (if level_valid b1 then st0.levels_tried ++ ["市または区"]
         else st0.levels_tried ++ ["市または区", "広域"]) :=
    fun st0 => estimate_level2_stats b1 b2 st0 h1
  rcases callGemini_cases b0 with ⟨p, g, he⟩ | ⟨g, he⟩ | ⟨m, g, he⟩ |
    ⟨g, he⟩ | he
  · have hv : level_valid b0 = response_is_valid p := by
      simp [level_valid, level_outcome, he]
    cases hp : response_is_valid p with
    | true =>
      simp [estimate_price, he, hv, hp, search_levels]
    | false =>
      obtain ⟨hq, hl⟩ := main ⟨1, g, ["町名"], true⟩
      simp only [estimate_price, he, hp]
      simp only [Bool.false_eq_true, if_false, hv, hp]
      rw [hq, hl]
      cases hb1 : level_valid b1 <;> simp [search_levels]
  · have hv : level_valid b0 = false := by
      simp [level_valid, level_outcome, he]
    obtain ⟨hq, hl⟩ := main ⟨1, g, ["町名"], true⟩
    simp only [estimate_price, he]
    simp only [hv, Bool.false_eq_true, if_false]
    rw [hq, hl]
    cases hb1 : level_valid b1 <;> simp [search_levels]
  · have hv : level_valid b0 = false := by
      simp [level_valid, level_outcome, he]
    obtain ⟨hq, hl⟩ := main ⟨1, g, ["町名"], true⟩
    simp only [estimate_price, he]
    simp only [hv, Bool.false_eq_true, if_false]
    rw [hq, hl]
    cases hb1 : level_valid b1 <;> simp [search_levels]
  · rw [he] at h0
    simp at h0
  · rw [he] at h0
    simp at h0

/-- Recover the full `_call_gemini` triple from a parsed level outcome: the
session stays available. -/
theorem callGemini_eq_of_parsed (b : LevelBehavior) (p : ParsedResponse)
    (h : level_outcome b = CallOut.parsed p) :
    ∃ g, callGemini true b = (CallOut.parsed p, true, g) := by
  rcases callGemini_cases b with ⟨q, g, he⟩ | ⟨g, he⟩ | ⟨m, g, he⟩ |
    ⟨g, he⟩ | he
  · simp only [level_outcome, he, CallOut.parsed.injEq] at h
    subst h
    exact ⟨g, he⟩
  · simp [level_outcome, he] at h
  · simp [level_outcome, he] at h
  · simp [level_outcome, he] at h
  · simp [level_outcome, he] at h

/-- Recover the full `_call_gemini` triple from a quota-refused level
outcome: the session flag has been cleared. -/
theorem callGemini_eq_of_quotaRefused (b : LevelBehavior)
    (h : level_outcome b = CallOut.quotaRefused) :
    ∃ g, callGemini true b = (CallOut.quotaRefused, false, g) := by
  rcases callGemini_cases b with ⟨q, g, he⟩ | ⟨g, he⟩ | ⟨m, g, he⟩ |
    ⟨g, he⟩ | he
  · simp [level_outcome, he] at h
  · simp [level_outcome, he] at h
  · simp [level_outcome, he] at h
  · exact ⟨g, he⟩
  · simp [level_outcome, he] at h

/-- When the first level neither aborts nor validates, the search becomes
the second-level search seeded with the first level's stats. -/
theorem estimate_price_advance0 (b0 b1 b2 : LevelBehavior)
    (hadv : level_advances b0) :
    ∃ g0, estimate_price true b0 b1 b2 =
      estimate_level2 true b1 b2 ⟨1, g0, ["町名"], true⟩ := by
  obtain ⟨hav, hlv⟩ := hadv
  rcases callGemini_cases b0 with ⟨p, g, he⟩ | ⟨g, he⟩ | ⟨m, g, he⟩ |
    ⟨g, he⟩ | he
  · have hp : response_is_valid p = false := by
      rw [← hlv]
      simp [level_valid, level_outcome, he]
    refine ⟨g, ?_⟩
    simp [estimate_price, he, hp]
  · exact ⟨g, by simp [estimate_price, he]⟩
  · exact ⟨g, by simp [estimate_price, he]⟩
  · rw [he] at hav
    simp at hav
  · rw [he] at hav
    simp at hav

/-- When the second level neither aborts nor validates, its search becomes
the third-level search seeded with the accumulated stats. -/
theorem estimate_level2_advance (b1 b2 : LevelBehavior) (st0 : SearchStats)
    (hadv : level_advances b1) :
    ∃ g1, estimate_level2 true b1 b2 st0 =
      estimate_level3 true b2 ⟨st0.queries + 1, st0.oracle_calls + g1,
        st0.levels_tried ++ ["市または区"], true⟩ := by
  obtain ⟨hav, hlv⟩ := hadv
  rcases callGemini_cases b1 with ⟨p, g, he⟩ | ⟨g, he⟩ | ⟨m, g, he⟩ |
    ⟨g, he⟩ | he
  · have hp : response_is_valid p = false := by
      rw [← hlv]
      simp [level_valid, level_outcome, he]
    refine ⟨g, ?_⟩
    simp [estimate_level2, he, hp]
  · exact ⟨g, by simp [estimate_level2, he]⟩
  · exact ⟨g, by simp [estimate_level2, he]⟩
  · rw [he] at hav
    simp at hav
  · rw [he] at hav
    simp at hav

/-- A level whose `エラー`-prefixed quota refusal arrives at iteration 1, 2
or 3 makes the loop return the quota failure at once: the failure dict is
returned, exactly the levels up to that point were attempted, and the
session's availability flag stays cleared.  (This is the amended C2: the
refusal path covers quota errors detected on `_call_gemini`'s first or
second transport attempt, whose message carries the `エラー` prefix that
line 610 recognises.) -/
theorem quota_refusal_aborts_search (b0 b1 b2 : LevelBehavior) :
    (level_outcome b0 = CallOut.quotaRefused →
      (estimate_price true b0 b1 b2).1 = fail_result quotaRefusedText ∧
      (estimate_price true b0 b1 b2).2.queries = 1 ∧
      (estimate_price true b0 b1 b2).2.levels_tried = search_levels.take 1 ∧
      (estimate_price true b0 b1 b2).2.avail_end = false) ∧
    (level_advances b0 → level_outcome b1 = CallOut.quotaRefused →
      (estimate_price true b0 b1 b2).1 = fail_result quotaRefusedText ∧
      (estimate_price true b0 b1 b2).2.queries = 2 ∧
      (estimate_price true b0 b1 b2).2.levels_tried = search_levels.take 2 ∧
      (estimate_price true b0 b1 b2).2.avail_end = false) ∧
    (level_advances b0 → level_advances b1 →
      level_outcome b2 = CallOut.quotaRefused →
      (estimate_price true b0 b1 b2).1 = fail_result quotaRefusedText ∧
      (estimate_price true b0 b1 b2).2.queries = 3 ∧
      (estimate_price true b0 b1 b2).2.levels_tried = search_levels ∧
      (estimate_price true b0 b1 b2).2.avail_end = false) := by
  refine ⟨?_, ?_, ?_⟩
  · intro h
    obtain ⟨g, he⟩ := callGemini_eq_of_quotaRefused b0 h
    simp [estimate_price, he, search_levels]
  · intro hadv0 h
    obtain ⟨g0, heq⟩ := estimate_price_advance0 b0 b1 b2 hadv0
    obtain ⟨g, he⟩ := callGemini_eq_of_quotaRefused b1 h
    rw [heq]
    simp [estimate_level2, he, search_levels]
  · intro hadv0 hadv1 h
    obtain ⟨g0, heq⟩ := estimate_price_advance0 b0 b1 b2 hadv0
    obtain ⟨g1, heq2⟩ := estimate_level2_advance b1 b2 _ hadv1
    obtain ⟨g, he⟩ := callGemini_eq_of_quotaRefused b2 h
    rw [heq, heq2]
    simp [estimate_level3, he, search_levels]

/-- A first-level behaviour that hits two non-quota transport failures and
then a quota error on `_call_gemini`'s final fallback attempt: the returned
text is the unprefixed quota message of line 223. -/
def quota_on_third_attempt : LevelBehavior :=
  (GenOutcome.exc "boom", GenOutcome.exc "boom", GenOutcome.exc "429")

/-- A level whose oracle responds but whose text parses to no listings and
no summary. -/
def all_invalid_level : LevelBehavior :=
  (GenOutcome.ok ⟨[], none⟩, GenOutcome.ok ⟨[], none⟩, GenOutcome.ok ⟨[], none⟩)

/-- C2 counterexample: when the quota error surfaces on the third transport
attempt of level 1, the returned response text does signal quota exhaustion
(it contains `クォータ`), but because it lacks the `エラー` prefix line 610
does not recognise it: the search attempts all three ladder levels (three
loop iterations) instead of terminating immediately, and the final failure
carries the unavailable message, not the quota message.  (The oracle is
disabled and no further `generate_content` call is made, but the
claim's "terminates immediately, no further level attempted" is false.) -/
theorem quota_short_circuit_counterexample :
    ((level_outcome quota_on_third_attempt).text.map is_quota_response =
      some true) ∧
    (estimate_price true quota_on_third_attempt all_invalid_level
        all_invalid_level).2.queries = 3 ∧
    (estimate_price true quota_on_third_attempt all_invalid_level
        all_invalid_level).2.levels_tried = search_levels ∧
    (estimate_price true quota_on_third_attempt all_invalid_level
        all_invalid_level).1.success = false ∧
    (estimate_price true quota_on_third_attempt all_invalid_level
        all_invalid_level).1.error = some unavailableText ∧
    (estimate_price true quota_on_third_attempt all_invalid_level
        all_invalid_level).2.oracle_calls = 3 := by
  refine ⟨by decide, by decide, by decide, by decide, by decide, by decide⟩

/-- A first-level behaviour whose very first transport attempt raises a
quota error: `_call_gemini` returns the `エラー`-prefixed refusal. -/
def quota_on_first_attempt : LevelBehavior :=
  (GenOutcome.exc "429 Resource has been exhausted",
    GenOutcome.ok ⟨[], none⟩, GenOutcome.ok ⟨[], none⟩)

/-- Witness for `quota_refusal_aborts_search`: its first conjunct applied to
a level that is quota-refused immediately. -/
theorem quota_refusal_aborts_search_witness :
    level_outcome quota_on_first_attempt = CallOut.quotaRefused ∧
    ((estimate_price true quota_on_first_attempt all_invalid_level
        all_invalid_level).1 = fail_result quotaRefusedText ∧
      (estimate_price true quota_on_first_attempt all_invalid_level
        all_invalid_level).2.queries = 1 ∧
      (estimate_price true quota_on_first_attempt all_invalid_level
        all_invalid_level).2.levels_tried = search_levels.take 1 ∧
      (estimate_price true quota_on_first_attempt all_invalid_level
        all_invalid_level).2.avail_end = false) :=
  ⟨by decide,
    (quota_refusal_aborts_search quota_on_first_attempt all_invalid_level
      all_invalid_level).1 (by decide)⟩

/-- Witness for `progressive_search_ladder_and_call_count`: applied to three
all-invalid levels, where it reports three queries over the full ladder. -/
theorem progressive_search_ladder_and_call_count_witness :
    ((callGemini true all_invalid_level).2.1 = true) ∧
    ((estimate_price true all_invalid_level all_invalid_level
        all_invalid_level).2.queries ≤ 3 ∧
      (estimate_price true all_invalid_level all_invalid_level
        all_invalid_level).2.queries =
        (if level_valid all_invalid_level then 1
         else if level_valid all_invalid_level then 2 else 3) ∧
      (estimate_price true all_invalid_level all_invalid_level
        all_invalid_level).2.levels_tried =
        search_levels.take (estimate_price true all_invalid_level
          all_invalid_level all_invalid_level).2.queries) :=
  ⟨by decide,
    progressive_search_ladder_and_call_count all_invalid_level
      all_invalid_level all_invalid_level (by decide) (by decide) (by decide)⟩

/-- When a summary fails the count part of the validity gate, the after-loop
construction reports a zero property count and forces the median to zero. -/
theorem finalize_success_gate_failed (summary : Option SearchSummary)
    (lvl : Option String)
    (hc : ∀ s, summary = some s → summary_count_valid s = false) :
    (finalize_success summary lvl).success = true ∧
    (finalize_success summary lvl).property_count = some 0 ∧
    (finalize_success summary lvl).average_price_median = some 0 := by
  have hzero : extract_number "0件" = 0 := by decide
  cases summary with
  | none => simp [finalize_success]
  | some s =>
    have hcs := hc s rfl
    rcases hcount : s.count_str with _ | c
    · simp [finalize_success, hcount, hzero]
    · by_cases hce : c = ""
      · simp [finalize_success, hcount, hce, hzero]
      · have hz : extract_number c = 0 := by
          simp [summary_count_valid, hcount, hce] at hcs
          omega
        simp [finalize_success, hcount, hce, hz]

/-- The amended C6: when all three ladder levels parse but fail the validity
gate, the search returns the success dict built from the final level's
summary: success true, zero median, zero property count, no search level —
and the price range echoing that summary's reported range (the zero range
only when the final level produced no summary). -/
theorem invalid_levels_zero_estimate (b0 b1 b2 : LevelBehavior)
    (p0 p1 p2 : ParsedResponse)
    (h0 : level_outcome b0 = CallOut.parsed p0)
    (hv0 : response_is_valid p0 = false)
    (h1 : level_outcome b1 = CallOut.parsed p1)
    (hv1 : response_is_valid p1 = false)
    (h2 : level_outcome b2 = CallOut.parsed p2)
    (hv2 : response_is_valid p2 = false) :
    (estimate_price true b0 b1 b2).1 = finalize_success p2.summary none ∧
    (estimate_price true b0 b1 b2).1.success = true ∧
    (estimate_price true b0 b1 b2).1.average_price_median = some 0 ∧
    (estimate_price true b0 b1 b2).1.property_count = some 0 ∧
    (estimate_price true b0 b1 b2).1.search_level = none := by
  have hadv0 : level_advances b0 := by
    obtain ⟨g, he⟩ := callGemini_eq_of_parsed b0 p0 h0
    exact ⟨by rw [he], by simp [level_valid, h0, hv0]⟩
  have hadv1 : level_advances b1 := by
    obtain ⟨g, he⟩ := callGemini_eq_of_parsed b1 p1 h1
    exact ⟨by rw [he], by simp [level_valid, h1, hv1]⟩
  obtain ⟨g0, heq⟩ := estimate_price_advance0 b0 b1 b2 hadv0
  obtain ⟨g1, heq2⟩ := estimate_level2_advance b1 b2 _ hadv1
  obtain ⟨g2, he2⟩ := callGemini_eq_of_parsed b2 p2 h2
  have hres : (estimate_price true b0 b1 b2).1 =
      finalize_success p2.summary none := by
    rw [heq, heq2]
    simp [estimate_level3, he2, hv2]
  have hsum : ∀ s, p2.summary = some s → summary_count_valid s = false := by
    intro s hs
    cases hsv : summary_count_valid s with
    | false => rfl
    | true =>
      have hvalid : response_is_valid p2 = true := by
        simp [response_is_valid, hs, hsv]
      rw [hv2] at hvalid
      cases hvalid
  obtain ⟨hsucc, hcount, hmed⟩ :=
    finalize_success_gate_failed p2.summary none hsum
  rw [hres]
  exact ⟨rfl, hsucc, hmed, hcount, by
    cases hps : p2.summary <;> simp [finalize_success, hps]⟩

/-- The aggregate summary used in the C6 counterexample: zero count, zero
median, but a non-trivial reported price range. -/
def zero_count_summary : SearchSummary :=
  { median_str := "¥0", range_str := some "¥5000〜¥8000",
    count_str := some "0件", memo := none, basis := none }

/-- A level that parses to no listings and the zero-count summary, hence
fails the validity gate. -/
def invalid_with_range_level : LevelBehavior :=
  (GenOutcome.ok ⟨[], some zero_count_summary⟩, GenOutcome.blank,
    GenOutcome.blank)

/-- C6 counterexample: with every ladder level failing the validity gate but
the final summary reporting the range `¥5000〜¥8000`, the search returns
success with zero median and zero count as claimed — but the price range is
5000-8000, not zero, so the claimed "zero price range" is false. -/
theorem no_listings_result_counterexample :
    level_valid invalid_with_range_level = false ∧
    (estimate_price true invalid_with_range_level invalid_with_range_level
        invalid_with_range_level).1.success = true ∧
    (estimate_price true invalid_with_range_level invalid_with_range_level
        invalid_with_range_level).1.average_price_median = some 0 ∧
    (estimate_price true invalid_with_range_level invalid_with_range_level
        invalid_with_range_level).1.property_count = some 0 ∧
    (estimate_price true invalid_with_range_level invalid_with_range_level
        invalid_with_range_level).1.price_range = some "¥5000〜¥8000" ∧
    (estimate_price true invalid_with_range_level invalid_with_range_level
        invalid_with_range_level).1.min_price = some 5000 ∧
    (estimate_price true invalid_with_range_level invalid_with_range_level
        invalid_with_range_level).1.max_price = some 8000 := by
  refine ⟨by decide, by decide, by decide, by decide, by decide, by decide,
    by decide⟩

/-- Witness for `invalid_levels_zero_estimate` at the concrete all-invalid
behaviour with a range-bearing summary. -/
theorem invalid_levels_zero_estimate_witness :
    (level_outcome invalid_with_range_level =
      CallOut.parsed ⟨[], some zero_count_summary⟩) ∧
    (response_is_valid ⟨[], some zero_count_summary⟩ = false) ∧
    ((estimate_price true invalid_with_range_level invalid_with_range_level
        invalid_with_range_level).1 =
      finalize_success (ParsedResponse.mk [] (some zero_count_summary)).summary
        none ∧
      (estimate_price true invalid_with_range_level invalid_with_range_level
        invalid_with_range_level).1.success = true ∧
      (estimate_price true invalid_with_range_level invalid_with_range_level
        invalid_with_range_level).1.average_price_median = some 0 ∧
      (estimate_price true invalid_with_range_level invalid_with_range_level
        invalid_with_range_level).1.property_count = some 0 ∧
      (estimate_price true invalid_with_range_level invalid_with_range_level
        invalid_with_range_level).1.search_level = none) :=
  ⟨by decide, by decide,
    invalid_levels_zero_estimate invalid_with_range_level
      invalid_with_range_level invalid_with_range_level
      ⟨[], some zero_count_summary⟩ ⟨[], some zero_count_summary⟩
      ⟨[], some zero_count_summary⟩ (by decide) (by decide) (by decide)
      (by decide) (by decide) (by decide)⟩

/- ===================================================================
   Part 4: ZoningChecker (src/modules/zoning_checker.py)

   Polygon geometry (shapely) is abstracted: a record's geometry is a
   containment predicate on (latitude, longitude).  `_point_in_polygon`
   is modelled as the first record whose geometry contains the point, in
   row order (the spatial-index candidate path, the linear fallback and
   the bounded degraded mode of lines 204-277 all scan rows; the model
   assumes candidates arrive in row order).  A dataset file is a path, a
   loadability flag (`_load_geojson_file` returning `None` on failure)
   and its records; the checker state is the `prefecture directory →
   files` dict as an association list in insertion order.
   =================================================================== -/

/-- One polygon record: a containment predicate and its attribute table
(values `none` model JSON null). -/
structure ZRecord where
  geometry : ℚ → ℚ → Bool
  props : List (String × Option String)

/-- One GeoJSON dataset file; `loadable = false` models
`_load_geojson_file` failing and returning `None` (lines 61-88). -/
structure ZFile where
  path : String
  loadable : Bool
  records : List ZRecord

/-- The Japanese-to-romaji prefecture table of
`_convert_prefecture_to_roman` (lines 124-172). -/
def prefecture_map : List (String × String) :=
  [("北海道", "hokkaido"), ("青森県", "aomori"), ("岩手県", "iwate"),
   ("宮城県", "miyagi"), ("秋田県", "akita"), ("山形県", "yamagata"),
   ("福島県", "fukushima"), ("茨城県", "ibaraki"), ("栃木県", "tochigi"),
   ("群馬県", "gunma"), ("埼玉県", "saitama"), ("千葉県", "chiba"),
   ("東京都", "tokyo"), ("神奈川県", "kanagawa"), ("新潟県", "niigata"),
   ("富山県", "toyama"), ("石川県", "ishikawa"), ("福井県", "fukui"),
   ("山梨県", "yamanashi"), ("長野県", "nagano"), ("岐阜県", "gifu"),
   ("静岡県", "shizuoka"), ("愛知県", "aichi"), ("三重県", "mie"),
   ("滋賀県", "shiga"), ("京都府", "kyoto"), ("大阪府", "osaka"),
   ("兵庫県", "hyogo"), ("奈良県", "nara"), ("和歌山県", "wakayama"),
   ("鳥取県", "tottori"), ("島根県", "shimane"), ("岡山県", "okayama"),
   ("広島県", "hiroshima"), ("山口県", "yamaguchi"), ("徳島県", "tokushima"),
   ("香川県", "kagawa"), ("愛媛県", "ehime"), ("高知県", "kochi"),
   ("福岡県", "fukuoka"), ("佐賀県", "saga"), ("長崎県", "nagasaki"),
   ("熊本県", "kumamoto"), ("大分県", "oita"), ("宮崎県", "miyazaki"),
   ("鹿児島県", "kagoshima"), ("沖縄県", "okinawa")]

/-- `_convert_prefecture_to_roman` (lines 113-180): empty input unchanged,
table hit, otherwise `str.lower()`. -/
def convert_prefecture_to_roman (pref : String) : String :=
  if pref = "" then pref
  else
    match prefecture_map.lookup pref with
    | some r => r
    | none => pyLower pref

/-- `_find_matching_geojson_files` (lines 90-111): romaji key first, then
the raw name, else no files. -/
def find_matching_geojson_files (files : List (String × List ZFile))
    (pref : String) : List ZFile :=
  match files.lookup (convert_prefecture_to_roman pref) with
  | some fs => fs
  | none =>
    match files.lookup pref with
    | some fs => fs
    | none => []

/-- All known dataset files, in stored dictionary order (the
`for files in self.geojson_files.values()` loops of lines 311-318). -/
def all_geojson_files (files : List (String × List ZFile)) : List ZFile :=
  (files.map (fun kv => kv.2)).flatten

/-- Candidate resolution of `check_zoning_by_coordinates` (lines 305-318):
a truthy hint selects its matching files, falling back to all files when
the hint matches nothing; no hint (or an empty one) selects all files. -/
def candidate_files (files : List (String × List ZFile))
    (pref : Option String) : List ZFile :=
  match pref with
  | some p =>
    if p ≠ "" then
      let m := find_matching_geojson_files files p
      if m.isEmpty then all_geojson_files files else m
    else all_geojson_files files
  | none => all_geojson_files files

/-- `_point_in_polygon` (lines 182-286): the first record, in row order,
whose geometry contains the query point; `none` when no row contains it. -/
def point_in_polygon (lat lon : ℚ) (records : List ZRecord) :
    Option ZRecord :=
  records.find? (fun r => r.geometry lat lon)

/-- The zoning-name attribute aliases, in priority order (line 359). -/
def zoning_type_keys : List String :=
  ["A29_005", "用途地域", "name", "ZoningType", "zoning_type",
   "ZONING_TYPE", "用途地域名"]

/-- The zoning-code attribute aliases, in priority order (line 370; the
duplicated `用途地域コード` entry of the source is kept). -/
def zoning_code_keys : List String :=
  ["A29_004", "用途地域コード", "code", "ZoningCode", "zoning_code",
   "ZONING_CODE", "用途地域コード"]

/-- `key in properties and properties[key]`: the key is present and its
value truthy (not null, not the empty string). -/
def truthy_lookup (props : List (String × Option String)) (k : String) :
    Option String :=
  match props.lookup k with
  | some (some v) => if v = "" then none else some v
  | _ => none

/-- The alias loop of lines 358-363 / 369-374: assign the stripped value of
every truthy alias in order, breaking on the first one that is non-empty
and not the literal `None`; the result is the Python variable's final value
(first good value if any, else the last assigned candidate, else `None`). -/
def alias_scan : List String → List (String × Option String) → Option String
  | [], _ => none
  | k :: rest, props =>
    match truthy_lookup props k with
    | none => alias_scan rest props
    | some v =>
      let s := pyStrip v
      if s ≠ "" ∧ s ≠ "None" then some s
      else
        match alias_scan rest props with
        | some r => some r
        | none => some s

/-- Lines 358-366: the zoning type of a matched record, `不明` when the
alias loop produced nothing truthy or an empty string. -/
def extract_zoning_type (props : List (String × Option String)) : String :=
  match alias_scan zoning_type_keys props with
  | some s => if s = "" then "不明" else s
  | none => "不明"

/-- Lines 369-377: the zoning code, empty when the alias loop produced
nothing truthy or an empty string. -/
def extract_zoning_code (props : List (String × Option String)) : String :=
  match alias_scan zoning_code_keys props with
  | some s => s
  | none => ""

/-- The per-record acceptance test of line 379: the extracted type is not
the `不明` placeholder (it is never empty, so the truthiness test of the
source is subsumed); the accepted type and code. -/
def record_hit (r : ZRecord) : Option (String × String) :=
  let zt := extract_zoning_type r.props
  if zt ≠ "不明" then some (zt, extract_zoning_code r.props) else none

/-- The file-scan loop of lines 333-392: skip unloadable files, count
loaded ones, stop at the first loaded file whose first containing record
is accepted.  Returns the checked count and the hit (record data and file
path). -/
def scan_files (lat lon : ℚ) :
    List ZFile → ℕ → ℕ × Option (String × String × String)
  | [], checked => (checked, none)
  | f :: rest, checked =>
    if f.loadable = false then scan_files lat lon rest checked
    else
      match point_in_polygon lat lon f.records with
      | none => scan_files lat lon rest (checked + 1)
      | some r =>
        match record_hit r with
        | some (zt, zc) => (checked + 1, some (zt, zc, f.path))
        | none => scan_files lat lon rest (checked + 1)

/-- The result dict of `check_zoning_by_coordinates`; `file_checked`
carries the failure dicts' `file_checked` list. -/
structure ZoningOutcome where
  success : Bool
  error : Option String
  zoning_type : Option String
  zoning_code : Option String
  file_path : Option String
  file_checked : Option (List String)

/-- `check_zoning_by_coordinates` (lines 288-411): candidate resolution,
empty-candidate failure (lines 320-328), the scan, the success dict
(lines 382-392) or the not-found failure carrying the checked count in its
error text and the first five candidate paths (lines 394-402).  Float
formatting inside the error f-string is rendered with `toString` on ℚ. -/
def check_zoning_by_coordinates (files : List (String × List ZFile))
    (lat lon : ℚ) (pref : Option String) : ZoningOutcome :=
  let cands := candidate_files files pref
  if cands.isEmpty then
    { success := false, error := some "対応するGeoJSONファイルが見つかりません",
      zoning_type := none, zoning_code := none, file_path := none,
      file_checked := some [] }
  else
    match scan_files lat lon cands 0 with
    | (_, some (zt, zc, path)) =>
      { success := true, error := none, zoning_type := some zt,
        zoning_code := some zc, file_path := some path, file_checked := none }
    | (checked, none) =>
      { success := false,
        error := some ("指定された座標(" ++ toString lat ++ ", " ++
          toString lon ++ ")の用途地域が見つかりませんでした。チェックしたファイル数: " ++
          toString checked),
        zoning_type := none, zoning_code := none, file_path := none,
        file_checked := some ((cands.map (fun f => f.path)).take 5) }

/-- Declarative first hit over the candidate list: the first loadable file
whose first containing record is accepted, with the accepted data. -/
def first_scan_hit (lat lon : ℚ) (fs : List ZFile) :
    Option (String × String × String) :=
  fs.findSome? (fun f =>
    if f.loadable then
      match point_in_polygon lat lon f.records with
      | some r =>
        match record_hit r with
        | some (zt, zc) => some (zt, zc, f.path)
        | none => none
      | none => none
    else none)

/-- The scan agrees with the declarative first hit: a hit is returned with
its data, and with no hit the scan returns the number of loadable files as
its checked count. -/
theorem scan_files_agrees (lat lon : ℚ) : ∀ (fs : List ZFile) (n : ℕ),
    (∀ hit, first_scan_hit lat lon fs = some hit →
      ∃ checked, scan_files lat lon fs n = (checked, some hit)) ∧
    (first_scan_hit lat lon fs = none →
      scan_files lat lon fs n =
        (n + (fs.filter (fun f => f.loadable)).length, none)) := by
  intro fs
  induction fs with
  | nil =>
    intro n
    constructor
    · intro hit h
      simp [first_scan_hit] at h
    · intro _
      simp [scan_files]
  | cons f rest ih =>
    intro n
    cases hl : f.loadable with
    | false =>
      constructor
      · intro hit h
        simp only [first_scan_hit, List.findSome?_cons, hl, if_false] at h
        obtain ⟨checked, hc⟩ := ((ih n).1 hit h)
        exact ⟨checked, by simp [scan_files, hl, hc]⟩
      · intro h
        simp only [first_scan_hit, List.findSome?_cons, hl, if_false] at h
        have := (ih n).2 h
        simp [scan_files, hl, this, List.filter_cons, hl]
    | true =>
      cases hp : point_in_polygon lat lon f.records with
      | none =>
        constructor
        · intro hit h
          simp only [first_scan_hit, List.findSome?_cons, hl, if_true,
            hp] at h
          obtain ⟨checked, hc⟩ := ((ih (n + 1)).1 hit h)
          exact ⟨checked, by simp [scan_files, hl, hp, hc]⟩
        · intro h
          simp only [first_scan_hit, List.findSome?_cons, hl, if_true,
            hp] at h
          have := (ih (n + 1)).2 h
          simp [scan_files, hl, hp, this, List.filter_cons, hl]
          omega
      | some r =>
        cases hr : record_hit r with
        | none =>
          constructor
          · intro hit h
            simp only [first_scan_hit, List.findSome?_cons, hl, if_true,
              hp, hr] at h
            obtain ⟨checked, hc⟩ := ((ih (n + 1)).1 hit h)
            exact ⟨checked, by simp [scan_files, hl, hp, hr, hc]⟩
          · intro h
            simp only [first_scan_hit, List.findSome?_cons, hl, if_true,
              hp, hr] at h
            have := (ih (n + 1)).2 h
            simp [scan_files, hl, hp, hr, this, List.filter_cons, hl]
            omega
        | some pair =>
          constructor
          · intro hit h
            simp only [first_scan_hit, List.findSome?_cons, hl, if_true,
              hp, hr] at h
            refine ⟨n + 1, ?_⟩
            simp [scan_files, hl, hp, hr, ← h]
          · intro h
            simp only [first_scan_hit, List.findSome?_cons, hl, if_true,
              hp, hr] at h
            simp at h

/-- The extracted zoning type is never the empty string: empty candidates
are replaced by the `不明` placeholder. -/
theorem extract_zoning_type_ne_empty
    (props : List (String × Option String)) :
    extract_zoning_type props ≠ "" := by
  unfold extract_zoning_type
  cases alias_scan zoning_type_keys props with
  | none => decide
  | some s =>
    by_cases hs : s = ""
    · simp [hs]
    · simp [hs]

/-- An accepted record's reported type is its alias-extracted type, and it
is not the placeholder. -/
theorem record_hit_type (r : ZRecord) (zt zc : String)
    (h : record_hit r = some (zt, zc)) :
    zt = extract_zoning_type r.props ∧ zt ≠ "不明" := by
  simp only [record_hit] at h
  split at h
  · simp only [Option.some.injEq, Prod.mk.injEq] at h
    refine ⟨h.1.symm, ?_⟩
    rw [h.1.symm] at *
    assumption
  · cases h

/-- The zoning type reported by a scan hit is non-empty. -/
theorem first_scan_hit_type_nonempty (lat lon : ℚ) (fs : List ZFile)
    (zt zc path : String)
    (h : first_scan_hit lat lon fs = some (zt, zc, path)) : zt ≠ "" := by
  obtain ⟨f, hf, hfa⟩ := List.exists_of_findSome?_eq_some h
  by_cases hl : f.loadable = true
  · simp only [hl, if_true] at hfa
    rcases hp : point_in_polygon lat lon f.records with _ | r
    · simp only [hp] at hfa
      cases hfa
    · simp only [hp] at hfa
      rcases hr : record_hit r with _ | pair
      · simp only [hr] at hfa
        cases hfa
      · simp only [hr] at hfa
        simp only [Option.some.injEq, Prod.mk.injEq] at hfa
        obtain ⟨hzt, _, _⟩ := hfa
        rcases pair with ⟨p1, p2⟩
        obtain ⟨he, _⟩ := record_hit_type r p1 p2 hr
        rw [← hzt, he]
        exact extract_zoning_type_ne_empty r.props
  · simp only [Bool.not_eq_true] at hl
    rw [hl] at hfa
    simp at hfa

/-- C3: the zoning lookup resolves its candidate files from the hint (the
hint's datasets when it matches, all known datasets in stored order when
there is no hint or it matches nothing), returns the first scanned record
hit — the first loadable file whose first containing record's
alias-extracted classification is accepted — with a non-empty
classification, and scans no further files after that hit (the scan result
is independent of everything after the hit file). -/
theorem zoning_lookup_scan_order_and_first_hit
    (files : List (String × List ZFile)) (lat lon : ℚ)
    (pref : Option String) :
    (pref = none → candidate_files files pref = all_geojson_files files) ∧
    (∀ p, pref = some p → p ≠ "" →
      find_matching_geojson_files files p ≠ [] →
      candidate_files files pref = find_matching_geojson_files files p) ∧
    (∀ p, pref = some p → find_matching_geojson_files files p = [] →
      candidate_files files pref = all_geojson_files files) ∧
    (∀ zt zc path,
      first_scan_hit lat lon (candidate_files files pref) =
        some (zt, zc, path) →
      check_zoning_by_coordinates files lat lon pref =
        { success := true, error := none, zoning_type := some zt,
          zoning_code := some zc, file_path := some path,
          file_checked := none } ∧ zt ≠ "") ∧
    (∀ (fs1 fs2 fs2' : List ZFile) (f : ZFile) (n : ℕ),
      f.loadable = true →
      (∃ r zt zc, point_in_polygon lat lon f.records = some r ∧
        record_hit r = some (zt, zc)) →
      scan_files lat lon (fs1 ++ f :: fs2) n =
        scan_files lat lon (fs1 ++ f :: fs2') n) := by
  refine ⟨?_, ?_, ?_, ?_, ?_⟩
  · intro h
    rw [h]
    rfl
  · intro p hp hne hm
    rw [hp]
    rcases hmm : find_matching_geojson_files files p with _ | ⟨a, as⟩
    · exact absurd hmm hm
    · simp [candidate_files, hne, hmm]
  · intro p hp hm
    rw [hp]
    by_cases hpe : p = ""
    · simp [candidate_files, hpe]
    · simp [candidate_files, hpe, hm]
  · intro zt zc path h
    have hne : (candidate_files files pref).isEmpty = false := by
      rcases hc : candidate_files files pref with _ | _
      · rw [hc] at h
        simp [first_scan_hit] at h
      · rfl
    obtain ⟨checked, hsc⟩ :=
      ((scan_files_agrees lat lon (candidate_files files pref) 0).1 _ h)
    refine ⟨?_, first_scan_hit_type_nonempty lat lon _ zt zc path h⟩
    simp [check_zoning_by_coordinates, hne, hsc]
  · intro fs1 fs2 fs2' f n hl hhit
    obtain ⟨r, zt, zc, hp, hr⟩ := hhit
    induction fs1 generalizing n with
    | nil =>
      simp [scan_files, hl, hp, hr]
    | cons g gs ih =>
      cases hgl : g.loadable with
      | false =>
        simp only [List.cons_append, scan_files, hgl]
        exact ih n
      | true =>
        rcases hgp : point_in_polygon lat lon g.records with _ | gr
        · simp only [List.cons_append, scan_files, hgl, hgp]
          exact ih (n + 1)
        · rcases hgr : record_hit gr with _ | pair
          · simp only [List.cons_append, scan_files, hgl, hgp, hgr]
            exact ih (n + 1)
          · simp only [List.cons_append, scan_files, hgl, hgp, hgr]
            rfl

/-- C9: with a non-empty candidate list and no scan hit, the lookup fails
with a null zoning type and code, an error text carrying the count of files
actually checked (the loadable candidates), and the first five candidate
paths; and an unloadable file is skipped — the scan of the remaining files
proceeds as if it were absent, without incrementing the checked count. -/
theorem zoning_no_hit_failure (files : List (String × List ZFile))
    (lat lon : ℚ) (pref : Option String) :
    (candidate_files files pref ≠ [] →
      first_scan_hit lat lon (candidate_files files pref) = none →
      check_zoning_by_coordinates files lat lon pref =
        { success := false,
          error := some ("指定された座標(" ++ toString lat ++ ", " ++
            toString lon ++
            ")の用途地域が見つかりませんでした。チェックしたファイル数: " ++
            toString (((candidate_files files pref).filter
              (fun f => f.loadable)).length)),
          zoning_type := none, zoning_code := none, file_path := none,
          file_checked := some (((candidate_files files pref).map
            (fun f => f.path)).take 5) }) ∧
    (∀ (f : ZFile) (fs : List ZFile) (n : ℕ), f.loadable = false →
      scan_files lat lon (f :: fs) n = scan_files lat lon fs n) := by
  constructor
  · intro hne hnone
    have hempty : (candidate_files files pref).isEmpty = false := by
      rcases hc : candidate_files files pref with _ | _
      · exact absurd hc hne
      · rfl
    have hsc := (scan_files_agrees lat lon (candidate_files files pref) 0).2
      hnone
    rw [Nat.zero_add] at hsc
    simp [check_zoning_by_coordinates, hempty, hsc]
  · intro f fs n hl
    simp [scan_files, hl]

/-- A record containing every point, classified as a commercial district
under the `用途地域` alias. -/
def demo_hit_record : ZRecord :=
  { geometry := fun _ _ => true, props := [("用途地域", some "商業地域")] }

/-- A loadable Tokyo dataset file holding `demo_hit_record`. -/
def demo_hit_file : ZFile :=
  { path := "tokyo_a.geojson", loadable := true,
    records := [demo_hit_record] }

/-- A checker state with one Tokyo dataset. -/
def demo_files : List (String × List ZFile) := [("tokyo", [demo_hit_file])]

/-- Witness for `zoning_lookup_scan_order_and_first_hit`: its hit clause
applied to a one-file state with a Tokyo hint. -/
theorem zoning_lookup_scan_order_and_first_hit_witness :
    (first_scan_hit 35 139 (candidate_files demo_files (some "東京都")) =
      some ("商業地域", "", "tokyo_a.geojson")) ∧
    (check_zoning_by_coordinates demo_files 35 139 (some "東京都") =
      { success := true, error := none, zoning_type := some "商業地域",
        zoning_code := some "", file_path := some "tokyo_a.geojson",
        file_checked := none } ∧ ("商業地域" : String) ≠ "") :=
  ⟨rfl, (zoning_lookup_scan_order_and_first_hit demo_files 35 139
    (some "東京都")).2.2.2.1 "商業地域" "" "tokyo_a.geojson" rfl⟩

/-- A record containing no point. -/
def demo_miss_record : ZRecord :=
  { geometry := fun _ _ => false, props := [] }

/-- A loadable Osaka dataset file holding `demo_miss_record`. -/
def demo_miss_file : ZFile :=
  { path := "osaka_a.geojson", loadable := true,
    records := [demo_miss_record] }

/-- A checker state with one Osaka dataset. -/
def demo_miss_files : List (String × List ZFile) :=
  [("osaka", [demo_miss_file])]

/-- Witness for `zoning_no_hit_failure`: the no-hit clause applied to a
one-file state with no hint. -/
theorem zoning_no_hit_failure_witness :
    (candidate_files demo_miss_files none ≠ []) ∧
    (first_scan_hit 35 139 (candidate_files demo_miss_files none) = none) ∧
    check_zoning_by_coordinates demo_miss_files 35 139 none =
      { success := false,
        error := some ("指定された座標(" ++ toString (35 : ℚ) ++ ", " ++
          toString (139 : ℚ) ++
          ")の用途地域が見つかりませんでした。チェックしたファイル数: " ++
          toString (((candidate_files demo_miss_files none).filter
            (fun f => f.loadable)).length)),
        zoning_type := none, zoning_code := none, file_path := none,
        file_checked := some (((candidate_files demo_miss_files none).map
          (fun f => f.path)).take 5) } :=
  ⟨by exact List.cons_ne_nil _ _, rfl,
    (zoning_no_hit_failure demo_miss_files 35 139 none).1
      (by exact List.cons_ne_nil _ _) rfl⟩

/- ===================================================================
   Part 5: InitialCostEstimator._parse_cost_value
   (src/modules/initial_cost_estimator.py lines 31-63)

   The function receives a cost value string from the oracle's JSON (the
   numeric `isinstance` branch of line 50 is outside the string model)
   and a previously-extracted monthly rent.  Its two regexes are
   implemented with leftmost-match semantics:
   `([0-9]+(?:\.[0-9]+)?)\s*[ヶ月か月ヵ月月分]` (line 53) and `[0-9,]+`
   (line 58).
   =================================================================== -/

/-- The character class `[ヶ月か月ヵ月月分]` of line 53 (duplicates of the
source collapse). -/
def month_chars : List Char := ['ヶ', '月', 'か', 'ヵ', '分']

/-- Match attempt of the month regex anchored at the head of `l`: a digit
run, an optional `.`-fraction (dropped again if the tail then fails, as the
regex backtracks), greedy whitespace, then one month-class character;
returns the parsed group-1 number. -/
def monthMatchAt (l : List Char) : Option ℚ :=
  let d1 := l.takeWhile Char.isDigit
  if d1.isEmpty then none
  else
    let tryTail : List Char → ℚ → Option ℚ := fun rest v =>
      match rest.dropWhile Char.isWhitespace with
      | c :: _ => if month_chars.contains c then some v else none
      | [] => none
    let rest1 := l.dropWhile Char.isDigit
    match rest1 with
    | '.' :: r2 =>
      let d2 := r2.takeWhile Char.isDigit
      if d2.isEmpty then tryTail rest1 (digitsToNat d1)
      else
        match tryTail (r2.dropWhile Char.isDigit)
          ((digitsToNat d1 : ℚ) + (digitsToNat d2 : ℚ) / 10 ^ d2.length) with
        | some v => some v
        | none => tryTail rest1 (digitsToNat d1)
    | _ => tryTail rest1 (digitsToNat d1)

/-- `re.search` of the month regex: try every start position left to
right. -/
def monthMatch : List Char → Option ℚ
  | [] => none
  | c :: cs =>
    match monthMatchAt (c :: cs) with
    | some v => some v
    | none => monthMatch cs

/-- The `digits_match` fallback of lines 58-60: the first `[0-9,]` run with
its commas removed, as an integer; 0 when the de-comma'd run is empty (the
`int('')` ValueError swallowed by the enclosing handler). -/
def cost_digits_fallback (s : String) : ℤ :=
  match findDigitCommaRun s.data with
  | some (run, _) =>
    let ds := run.filter (fun c => c ≠ ',')
    if ds.isEmpty then 0 else (digitsToNat ds : ℤ)
  | none => 0

/-- The explicit zero notations of line 47. -/
def zero_notations : List String := ["なし", "無し", "0", "0円", "なし。", "無し。"]

/-- `_parse_cost_value` (lines 31-63) on a string value: strip, the zero
notations, then the month regex — converted through the rent only when a
positive rent is known — and otherwise the bare digit-run fallback. -/
def parse_cost_value (raw : String) (rent_value : ℤ) : ℤ :=
  let value_str := pyStrip raw
  if value_str ∈ zero_notations then 0
  else
    match monthMatch value_str.data with
    | some m =>
      if 0 < rent_value then pyRound (m * rent_value)
      else cost_digits_fallback value_str
    | none => cost_digits_fallback value_str

/-- C7 counterexample: `_parse_cost_value("2ヶ月", rent_value=0)` returns 2
(the bare digit run), not the claimed 0. -/
theorem cost_month_multiplier_counterexample :
    parse_cost_value "2ヶ月" 0 = 2 ∧ ¬(parse_cost_value "2ヶ月" 0 = 0) :=
  ⟨by decide, by decide⟩

/-- The amended C7: a cost value carrying an `N months` notation resolves
to `round(N × rent)` whenever the previously-extracted rent is positive;
when the rent is unknown (not positive) the extractor falls back — without
raising — to the first bare digit run of the value, so `2ヶ月` with rent
80000 gives 160000 while the same value with rent 0 gives 2. -/
theorem cost_month_multiplier (s : String) (m : ℚ) (rent : ℤ)
    (hz : pyStrip s ∉ zero_notations)
    (hm : monthMatch (pyStrip s).data = some m) :
    (0 < rent → parse_cost_value s rent = pyRound (m * rent)) ∧
    parse_cost_value s 0 = cost_digits_fallback (pyStrip s) ∧
    parse_cost_value "2ヶ月" 80000 = 160000 ∧
    parse_cost_value "2ヶ月" 0 = 2 := by
  refine ⟨?_, ?_, ?_, by decide⟩
  · intro hr
    simp [parse_cost_value, hz, hm, hr]
  · simp [parse_cost_value, hz, hm]
  · have h2 : monthMatch (pyStrip "2ヶ月").data = some 2 := by decide
    have hz2 : pyStrip "2ヶ月" ∉ zero_notations := by decide
    simp only [parse_cost_value, hz2, h2]
    norm_num [pyRound]

/-- Witness for `cost_month_multiplier` at `2ヶ月` with rent 80000. -/
theorem cost_month_multiplier_witness :
    (pyStrip "2ヶ月" ∉ zero_notations) ∧
    (monthMatch (pyStrip "2ヶ月").data = some 2) ∧
    ((0 < (80000 : ℤ) →
        parse_cost_value "2ヶ月" 80000 = pyRound (2 * (80000 : ℤ))) ∧
      parse_cost_value "2ヶ月" 0 = cost_digits_fallback (pyStrip "2ヶ月") ∧
      parse_cost_value "2ヶ月" 80000 = 160000 ∧
      parse_cost_value "2ヶ月" 0 = 2) :=
  ⟨by decide, by decide,
    cost_month_multiplier "2ヶ月" 2 80000 (by decide) (by decide)⟩

/- ===================================================================
   Part 6: law_result_formatter parsers
   (src/modules/law_result_formatter.py lines 189-215 and 232-253)
   =================================================================== -/

/-- The three fields of `_parse_permission_result_internal`: `判定`,
`理由`, `制限`. -/
structure PermissionFields where
  judgment : String
  reason : String
  restriction : String
  deriving Repr, DecidableEq

/-- One loop iteration of `_parse_permission_result_internal` (lines
205-213): strip the line, then an if/elif chain on the three leading
labels, each assignment removing every occurrence of its label from the
line and stripping. -/
def parse_line_permission (acc : PermissionFields) (line : String) :
    PermissionFields :=
  let l := pyStrip line
  if pyStartsWith l "許可判定:" then
    { acc with judgment := pyStrip (pyRemoveAll l "許可判定:") }
  else if pyStartsWith l "主な理由:" then
    { acc with reason := pyStrip (pyRemoveAll l "主な理由:") }
  else if pyStartsWith l "その他制限:" then
    { acc with restriction := pyStrip (pyRemoveAll l "その他制限:") }
  else acc

/-- `_parse_permission_result_internal` (lines 189-215): fold the line
loop over the split text, starting from the defaults `不明`/`不明`/
`特になし`. -/
def parse_permission_result_internal (text : String) : PermissionFields :=
  (splitLines text).foldl parse_line_permission
    ⟨"不明", "不明", "特になし"⟩

/-- One loop iteration of `_parse_requirements_internal` (lines 245-251):
the first key (in key order) whose `key:` prefix matches the stripped line
gets the label-stripped remainder; the `break` stops at that key. -/
def parse_line_requirements (keys : List String)
    (acc : List (String × String)) (line : String) :
    List (String × String) :=
  let l := pyStrip line
  match keys.find? (fun k => pyStartsWith l (k ++ ":")) with
  | some k =>
    acc.map (fun kv =>
      if kv.1 = k then (k, pyStrip (pyRemoveAll l (k ++ ":"))) else kv)
  | none => acc

/-- `_parse_requirements_internal` (lines 232-253): every key defaults to
`不明`, then the line loop folds over the split text. -/
def parse_requirements_internal (text : String) (keys : List String) :
    List (String × String) :=
  (splitLines text).foldl (parse_line_requirements keys)
    (keys.map (fun k => (k, "不明")))

/-- The stripped lines of `text` that begin with `label`. -/
def matching_lines (text label : String) : List String :=
  ((splitLines text).map pyStrip).filter (fun l => pyStartsWith l label)

/-- The value a matched line contributes: the line with every occurrence
of the label removed, stripped. -/
def strip_label (label l : String) : String :=
  pyStrip (pyRemoveAll l label)

/-- C8 counterexample: with the `許可判定:` label on two lines, the parser
reports the remainder of the last matching line, not the first. -/
theorem legal_parser_first_line_counterexample :
    (parse_permission_result_internal
      "許可判定: 可能\n許可判定: 不可").judgment = "不可" ∧
    ¬((parse_permission_result_internal
      "許可判定: 可能\n許可判定: 不可").judgment = "可能") :=
  ⟨by decide, by decide⟩

/-- The line step touches `judgment` exactly on a `許可判定:` line. -/
theorem parse_line_permission_judgment (acc : PermissionFields)
    (l : String) :
    (parse_line_permission acc l).judgment =
      (if pyStartsWith (pyStrip l) "許可判定:" then
        strip_label "許可判定:" (pyStrip l) else acc.judgment) := by
  simp only [parse_line_permission, strip_label]
  split_ifs <;> rfl

/-- The line step touches `reason` exactly on a `主な理由:` line. -/
theorem parse_line_permission_reason (acc : PermissionFields) (l : String) :
    (parse_line_permission acc l).reason =
      (if pyStartsWith (pyStrip l) "許可判定:" then acc.reason
       else if pyStartsWith (pyStrip l) "主な理由:" then
        strip_label "主な理由:" (pyStrip l) else acc.reason) := by
  simp only [parse_line_permission, strip_label]
  split_ifs <;> rfl

/-- The line step touches `restriction` exactly on a `その他制限:` line
that matched no earlier label. -/
theorem parse_line_permission_restriction (acc : PermissionFields)
    (l : String) :
    (parse_line_permission acc l).restriction =
      (if pyStartsWith (pyStrip l) "許可判定:" then acc.restriction
       else if pyStartsWith (pyStrip l) "主な理由:" then acc.restriction
       else if pyStartsWith (pyStrip l) "その他制限:" then
        strip_label "その他制限:" (pyStrip l) else acc.restriction) := by
  simp only [parse_line_permission, strip_label]
  split_ifs <;> rfl

/-- Folding the permission line loop: the judgment is the processed last
`許可判定:` line, or the seed's judgment when no line matches.  (The three
labels share no prefix, so the earlier branches of the if/elif chain do not
interfere.) -/
theorem foldl_permission_judgment (lines : List String) :
    ∀ acc : PermissionFields,
      (lines.foldl parse_line_permission acc).judgment =
        ((((lines.map pyStrip).filter
            (fun l => pyStartsWith l "許可判定:")).getLast?).elim
          acc.judgment (strip_label "許可判定:")) := by
  induction lines with
  | nil =>
    intro acc
    simp
  | cons l ls ih =>
    intro acc
    rw [List.foldl_cons, ih]
    by_cases h : pyStartsWith (pyStrip l) "許可判定:" = true
    · simp only [List.map_cons, List.filter_cons, h, if_true]
      rcases hf : (ls.map pyStrip).filter
          (fun x => pyStartsWith x "許可判定:") with _ | ⟨y, ys⟩
      · simp [parse_line_permission_judgment, h]
      · obtain ⟨z, hz⟩ := Option.isSome_iff_exists.mp
          (List.getLast?_isSome.mpr (List.cons_ne_nil y ys))
        rw [List.getLast?_cons_cons, hz]
        rfl
    · simp only [List.map_cons, List.filter_cons, h]
      have hj : (parse_line_permission acc l).judgment = acc.judgment := by
        rw [parse_line_permission_judgment, if_neg]
        simp [h]
      simp [hj]

/-- Lists starting with different head characters: matching one prefix
excludes the other. -/
theorem startsWithL_head_ne (l : List Char) (c1 c2 : Char)
    (p1 p2 : List Char) (hne : c1 ≠ c2)
    (h : startsWithL l (c1 :: p1) = true) :
    startsWithL l (c2 :: p2) = false := by
  cases l with
  | nil => simp [startsWithL] at h
  | cons a as =>
    simp only [startsWithL, Bool.and_eq_true, decide_eq_true_eq] at h
    simp only [startsWithL, Bool.and_eq_false_iff]
    left
    simp [h.1, hne]

/-- The three permission labels begin with distinct characters, so a line
matches at most one branch of the if/elif chain. -/
theorem perm_labels_disjoint (s : String) :
    (pyStartsWith s "主な理由:" = true → pyStartsWith s "許可判定:" = false) ∧
    (pyStartsWith s "その他制限:" = true →
      pyStartsWith s "許可判定:" = false) ∧
    (pyStartsWith s "その他制限:" = true →
      pyStartsWith s "主な理由:" = false) := by
  refine ⟨?_, ?_, ?_⟩ <;> intro h <;>
    exact startsWithL_head_ne _ _ _ _ _ (by decide) h

/-- The line step touches `reason` exactly on a `主な理由:` line. -/
theorem parse_line_permission_reason_iff (acc : PermissionFields)
    (l : String) :
    (parse_line_permission acc l).reason =
      (if pyStartsWith (pyStrip l) "主な理由:" then
        strip_label "主な理由:" (pyStrip l) else acc.reason) := by
  rw [parse_line_permission_reason]
  by_cases h1 : pyStartsWith (pyStrip l) "許可判定:" = true
  · have h2 : pyStartsWith (pyStrip l) "主な理由:" = false := by
      by_cases h3 : pyStartsWith (pyStrip l) "主な理由:" = true
      · rw [(perm_labels_disjoint (pyStrip l)).1 h3] at h1
        cases h1
      · simpa using h3
    simp [h1, h2]
  · simp [h1]

/-- The line step touches `restriction` exactly on a `その他制限:` line. -/
theorem parse_line_permission_restriction_iff (acc : PermissionFields)
    (l : String) :
    (parse_line_permission acc l).restriction =
      (if pyStartsWith (pyStrip l) "その他制限:" then
        strip_label "その他制限:" (pyStrip l) else acc.restriction) := by
  rw [parse_line_permission_restriction]
  by_cases h3 : pyStartsWith (pyStrip l) "その他制限:" = true
  · have h1 := (perm_labels_disjoint (pyStrip l)).2.1 h3
    have h2 := (perm_labels_disjoint (pyStrip l)).2.2 h3
    simp [h1, h2, h3]
  · by_cases h1 : pyStartsWith (pyStrip l) "許可判定:" = true
    · simp [h1, h3]
    · by_cases h2 : pyStartsWith (pyStrip l) "主な理由:" = true
      · simp [h1, h2, h3]
      · simp [h1, h2, h3]

/-- Folding the permission line loop: the reason is the processed last
`主な理由:` line, or the seed's reason. -/
theorem foldl_permission_reason (lines : List String) :
    ∀ acc : PermissionFields,
      (lines.foldl parse_line_permission acc).reason =
        ((((lines.map pyStrip).filter
            (fun l => pyStartsWith l "主な理由:")).getLast?).elim
          acc.reason (strip_label "主な理由:")) := by
  induction lines with
  | nil =>
    intro acc
    simp
  | cons l ls ih =>
    intro acc
    rw [List.foldl_cons, ih]
    by_cases h : pyStartsWith (pyStrip l) "主な理由:" = true
    · simp only [List.map_cons, List.filter_cons, h, if_true]
      rcases hf : (ls.map pyStrip).filter
          (fun x => pyStartsWith x "主な理由:") with _ | ⟨y, ys⟩
      · simp [parse_line_permission_reason_iff, h]
      · obtain ⟨z, hz⟩ := Option.isSome_iff_exists.mp
          (List.getLast?_isSome.mpr (List.cons_ne_nil y ys))
        rw [List.getLast?_cons_cons, hz]
        rfl
    · simp only [List.map_cons, List.filter_cons, h]
      have hj : (parse_line_permission acc l).reason = acc.reason := by
        rw [parse_line_permission_reason_iff, if_neg]
        simp [h]
      simp [hj]

/-- Folding the permission line loop: the restriction is the processed last
`その他制限:` line, or the seed's restriction. -/
theorem foldl_permission_restriction (lines : List String) :
    ∀ acc : PermissionFields,
      (lines.foldl parse_line_permission acc).restriction =
        ((((lines.map pyStrip).filter
            (fun l => pyStartsWith l "その他制限:")).getLast?).elim
          acc.restriction (strip_label "その他制限:")) := by
  induction lines with
  | nil =>
    intro acc
    simp
  | cons l ls ih =>
    intro acc
    rw [List.foldl_cons, ih]
    by_cases h : pyStartsWith (pyStrip l) "その他制限:" = true
    · simp only [List.map_cons, List.filter_cons, h, if_true]
      rcases hf : (ls.map pyStrip).filter
          (fun x => pyStartsWith x "その他制限:") with _ | ⟨y, ys⟩
      · simp [parse_line_permission_restriction_iff, h]
      · obtain ⟨z, hz⟩ := Option.isSome_iff_exists.mp
          (List.getLast?_isSome.mpr (List.cons_ne_nil y ys))
        rw [List.getLast?_cons_cons, hz]
        rfl
    · simp only [List.map_cons, List.filter_cons, h]
      have hj : (parse_line_permission acc l).restriction =
          acc.restriction := by
        rw [parse_line_permission_restriction_iff, if_neg]
        simp [h]
      simp [hj]

/-- Replacing the entries of one key leaves lookups of other keys
unchanged. -/
theorem lookup_map_replace_ne (acc : List (String × String))
    (k' v' key : String) (hne : k' ≠ key) :
    (acc.map (fun kv => if kv.1 = k' then (k', v') else kv)).lookup key =
      acc.lookup key := by
  induction acc with
  | nil => rfl
  | cons kv rest ih =>
    obtain ⟨k0, v0⟩ := kv
    simp only [List.map_cons]
    by_cases hk : k0 = k'
    · subst hk
      rw [show (if (k0, v0).1 = k0 then (k0, v') else (k0, v0)) = (k0, v')
        from by simp]
      have h1 : (key == k0) = false := by
        simp [Ne.symm hne]
      simp only [List.lookup, h1]
      exact ih
    · rw [show (if (k0, v0).1 = k' then (k', v') else (k0, v0)) = (k0, v0)
        from by simp [hk]]
      simp only [List.lookup]
      cases hkey : (key == k0) with
      | true => rfl
      | false => exact ih

/-- A key none of whose lines match keeps its seed value through the
requirements fold. -/
theorem foldl_requirements_unmatched (keys : List String) (key : String)
    (lines : List String) :
    ∀ acc : List (String × String),
      (∀ l ∈ lines,
        keys.find? (fun k => pyStartsWith (pyStrip l) (k ++ ":")) ≠
          some key) →
      (lines.foldl (parse_line_requirements keys) acc).lookup key =
        acc.lookup key := by
  induction lines with
  | nil =>
    intro acc _
    rfl
  | cons l ls ih =>
    intro acc hno
    rw [List.foldl_cons]
    rw [ih _ (fun x hx => hno x (List.mem_cons_of_mem l hx))]
    have hl := hno l (List.mem_cons_self l ls)
    simp only [parse_line_requirements]
    rcases hf : keys.find?
        (fun k => pyStartsWith (pyStrip l) (k ++ ":")) with _ | k
    · rfl
    · have hkne : k ≠ key := by
        intro hcontra
        rw [hf, hcontra] at hl
        exact hl rfl
      exact lookup_map_replace_ne acc k _ key hkne

/-- Seeding the requirements dict gives every listed key the default. -/
theorem lookup_requirements_seed (keys : List String) (key : String)
    (hmem : key ∈ keys) :
    (keys.map (fun k => (k, "不明"))).lookup key = some "不明" := by
  induction keys with
  | nil => cases hmem
  | cons k ks ih =>
    by_cases hk : key = k
    · simp [List.lookup, hk]
    · have : key ∈ ks := by
        rcases List.mem_cons.mp hmem with h | h
        · exact absurd h hk
        · exact h
      simp only [List.map_cons, List.lookup, beq_iff_eq, hk, if_false]
      have hbeq : (key == k) = false := by
        simp [hk]
      rw [hbeq]
      exact ih this

/-- The amended C8: each permission field holds the label-stripped
remainder of the LAST line whose leading label matches (the loop
overwrites on every match), with every occurrence of the label removed
from that line; a field whose label never appears keeps its default
(`不明` for judgment and reason, `特になし` for restrictions) and no
failure occurs — in particular a response missing only the `その他制限`
label parses its present fields and defaults the restriction; and in the
requirements parser any listed key that no line matches (under the
first-key-wins line dispatch) keeps its `不明` default. -/
theorem legal_parsers_label_fields (text : String) :
    ((parse_permission_result_internal text).judgment =
      ((matching_lines text "許可判定:").getLast?).elim "不明"
        (strip_label "許可判定:")) ∧
    ((parse_permission_result_internal text).reason =
      ((matching_lines text "主な理由:").getLast?).elim "不明"
        (strip_label "主な理由:")) ∧
    ((parse_permission_result_internal text).restriction =
      ((matching_lines text "その他制限:").getLast?).elim "特になし"
        (strip_label "その他制限:")) ∧
    (parse_permission_result_internal
      "許可判定: 可能\n主な理由: 商業地域のため" =
      ⟨"可能", "商業地域のため", "特になし"⟩) ∧
    (∀ keys key, key ∈ keys →
      (∀ l ∈ splitLines text,
        keys.find? (fun k => pyStartsWith (pyStrip l) (k ++ ":")) ≠
          some key) →
      (parse_requirements_internal text keys).lookup key = some "不明") := by
  refine ⟨?_, ?_, ?_, by decide, ?_⟩
  · simpa [matching_lines, parse_permission_result_internal] using
      foldl_permission_judgment (splitLines text) ⟨"不明", "不明", "特になし"⟩
  · simpa [matching_lines, parse_permission_result_internal] using
      foldl_permission_reason (splitLines text) ⟨"不明", "不明", "特になし"⟩
  · simpa [matching_lines, parse_permission_result_internal] using
      foldl_permission_restriction (splitLines text)
        ⟨"不明", "不明", "特になし"⟩
  · intro keys key hmem hno
    rw [parse_requirements_internal,
      foldl_requirements_unmatched keys key (splitLines text) _ hno]
    exact lookup_requirements_seed keys key hmem

/-- Witness for `legal_parsers_label_fields` at a response missing the
`その他制限` label, with the fire-code key list. -/
theorem legal_parsers_label_fields_witness :
    (("火災報知器" : String) ∈ (["火災報知器", "竪穴区画"] : List String)) ∧
    (∀ l ∈ splitLines "許可判定: 可能",
      (["火災報知器", "竪穴区画"] : List String).find?
        (fun k => pyStartsWith (pyStrip l) (k ++ ":")) ≠
        some "火災報知器") ∧
    ((parse_permission_result_internal "許可判定: 可能").judgment =
      ((matching_lines "許可判定: 可能" "許可判定:").getLast?).elim "不明"
        (strip_label "許可判定:")) ∧
    ((parse_permission_result_internal "許可判定: 可能").restriction =
      ((matching_lines "許可判定: 可能" "その他制限:").getLast?).elim
        "特になし" (strip_label "その他制限:")) ∧
    ((parse_requirements_internal "許可判定: 可能"
      ["火災報知器", "竪穴区画"]).lookup "火災報知器" = some "不明") :=
  ⟨by decide, by decide,
    (legal_parsers_label_fields "許可判定: 可能").1,
    (legal_parsers_label_fields "許可判定: 可能").2.2.1,
    (legal_parsers_label_fields "許可判定: 可能").2.2.2.2
      ["火災報知器", "竪穴区画"] "火災報知器" (by decide) (by decide)⟩

/- ===================================================================
   Part 7: Geocoder (src/modules/geocoder.py)

   The two HTTP providers are abstracted as outcome parameters: a call
   either produces coordinates with a formatted address or fails with an
   error message (every exception path of `geocode_with_google` /
   `geocode_with_geocoding_jp` returns such a dict itself).
   =================================================================== -/

/-- A geocoding result dict; `address` models the `address` key of the
final failure dict of `geocode_address` (line 188). -/
structure GeoResult where
  success : Bool
  error : Option String
  latitude : Option ℚ
  longitude : Option ℚ
  formatted_address : Option String
  method : Option String
  address : Option String
  deriving Repr, DecidableEq

/-- Abstract outcome of one provider call: coordinates plus formatted
address, or a failure with its message. -/
inductive ProviderOutcome where
  | ok (lat lon : ℚ) (formatted : String)
  | fail (err : String)
  deriving Repr, DecidableEq

/-- `geocode_with_google` (lines 32-88): an unset key fails immediately;
otherwise the provider outcome becomes a success dict with method
`google`, or a failure dict. -/
def geocode_with_google (key_set : Bool) (outcome : ProviderOutcome) :
    GeoResult :=
  match key_set with
  | false =>
    { success := false, error := some "Google Maps API キーが設定されていません",
      latitude := none, longitude := none, formatted_address := none,
      method := none, address := none }
  | true =>
    match outcome with
    | .ok lat lon fmt =>
      { success := true, error := none, latitude := some lat,
        longitude := some lon, formatted_address := some fmt,
        method := some "google", address := none }
    | .fail e =>
      { success := false, error := some e, latitude := none,
        longitude := none, formatted_address := none, method := none,
        address := none }

/-- `geocode_with_geocoding_jp` (lines 90-156): the provider outcome as a
success dict echoing the queried address, or a failure dict. -/
def geocode_with_geocoding_jp (address : String)
    (outcome : ProviderOutcome) : GeoResult :=
  match outcome with
  | .ok lat lon _ =>
    { success := true, error := none, latitude := some lat,
      longitude := some lon, formatted_address := some address,
      method := some "geocoding_jp", address := none }
  | .fail e =>
    { success := false, error := some e, latitude := none,
      longitude := none, formatted_address := none, method := none,
      address := none }

/-- `geocode_address` (lines 158-189): Google first when a key is set,
falling through to Geocoding.jp, then the combined failure dict. -/
def geocode_address (google_key : Bool) (g_out jp_out : ProviderOutcome)
    (address : String) : GeoResult :=
  let jp_chain : GeoResult :=
    let r2 := geocode_with_geocoding_jp address jp_out
    if r2.success then r2
    else
      { success := false, error := some "ジオコーディングに失敗しました",
        latitude := none, longitude := none, formatted_address := none,
        method := none, address := some address }
  match google_key with
  | true =>
    let r := geocode_with_google true g_out
    if r.success then r else jp_chain
  | false => jp_chain

/-- Every finalized estimator success dict has `success = true`. -/
theorem finalize_success_success (s : Option SearchSummary)
    (lvl : Option String) : (finalize_success s lvl).success = true := by
  cases s <;> rfl

/-- The last ladder iteration returns an error string whenever it fails. -/
theorem estimate_level3_error_total (avail : Bool) (b2 : LevelBehavior)
    (st : SearchStats) :
    (estimate_level3 avail b2 st).1.success = false →
    (estimate_level3 avail b2 st).1.error ≠ none := by
  rcases hc : callGemini avail b2 with ⟨o, a, g⟩
  cases o <;> simp only [estimate_level3, hc] <;>
    first
    | (split <;> simp [fail_result, finalize_success_success])
    | (simp [fail_result, finalize_success_success])

/-- The second ladder iteration returns an error string whenever it
fails. -/
theorem estimate_level2_error_total (avail : Bool) (b1 b2 : LevelBehavior)
    (st : SearchStats) :
    (estimate_level2 avail b1 b2 st).1.success = false →
    (estimate_level2 avail b1 b2 st).1.error ≠ none := by
  rcases hc : callGemini avail b1 with ⟨o, a, g⟩
  cases o with
  | quotaRefused => simp [estimate_level2, hc, fail_result]
  | parsed p =>
    simp only [estimate_level2, hc]
    split
    · simp [finalize_success_success]
    · exact estimate_level3_error_total a b2 _
  | unavailable =>
    simp only [estimate_level2, hc]
    exact estimate_level3_error_total a b2 _
  | plainQuota =>
    simp only [estimate_level2, hc]
    exact estimate_level3_error_total a b2 _
  | plainError m =>
    simp only [estimate_level2, hc]
    exact estimate_level3_error_total a b2 _
  | blankText =>
    simp only [estimate_level2, hc]
    exact estimate_level3_error_total a b2 _

/-- C10: each top-level pipeline operation is total in the model (a Lean
function) and its result dict always carries a Boolean `success`; whenever
`success` is false an `error` string is present: the zoning lookup, the
investment simulation (whose modelled arithmetic never fails, so success
is always true), the market-price estimation, and address geocoding. -/
theorem pipeline_results_carry_success_and_error :
    (∀ (files : List (String × List ZFile)) (lat lon : ℚ)
        (pref : Option String),
      (check_zoning_by_coordinates files lat lon pref).success = false →
      (check_zoning_by_coordinates files lat lon pref).error ≠ none) ∧
    (∀ (initial_costs operating_costs : List (String × ℚ)) (daily_rate : ℚ)
        (occupancy_rates : List ℚ) (tax_rate commission_rate : ℚ),
      (run_simulation initial_costs operating_costs daily_rate
        occupancy_rates tax_rate commission_rate).success = true) ∧
    (∀ (avail : Bool) (b0 b1 b2 : LevelBehavior),
      (estimate_price avail b0 b1 b2).1.success = false →
      (estimate_price avail b0 b1 b2).1.error ≠ none) ∧
    (∀ (google_key : Bool) (g_out jp_out : ProviderOutcome)
        (address : String),
      (geocode_address google_key g_out jp_out address).success = false →
      (geocode_address google_key g_out jp_out address).error ≠ none) := by
  refine ⟨?_, ?_, ?_, ?_⟩
  · intro files lat lon pref
    by_cases he : (candidate_files files pref).isEmpty
    · simp [check_zoning_by_coordinates, he]
    · rcases hs : scan_files lat lon (candidate_files files pref) 0 with
        ⟨checked, hit⟩
      cases hit with
      | none => simp [check_zoning_by_coordinates, he, hs]
      | some h3 => simp [check_zoning_by_coordinates, he, hs]
  · intro initial_costs operating_costs daily_rate occupancy_rates
      tax_rate commission_rate
    rfl
  · intro avail b0 b1 b2
    cases avail with
    | false => simp [estimate_price, fail_result]
    | true =>
      rcases hc : callGemini true b0 with ⟨o, a, g⟩
      cases o with
      | quotaRefused => simp [estimate_price, hc, fail_result]
      | parsed p =>
        simp only [estimate_price, hc]
        split
        · simp [finalize_success_success]
        · exact estimate_level2_error_total a b1 b2 _
      | unavailable =>
        simp only [estimate_price, hc]
        exact estimate_level2_error_total a b1 b2 _
      | plainQuota =>
        simp only [estimate_price, hc]
        exact estimate_level2_error_total a b1 b2 _
      | plainError m =>
        simp only [estimate_price, hc]
        exact estimate_level2_error_total a b1 b2 _
      | blankText =>
        simp only [estimate_price, hc]
        exact estimate_level2_error_total a b1 b2 _
  · intro google_key g_out jp_out address
    cases google_key with
    | false =>
      cases jp_out with
      | ok lat lon fmt =>
        simp [geocode_address, geocode_with_geocoding_jp]
      | fail e =>
        simp [geocode_address, geocode_with_geocoding_jp]
    | true =>
      cases g_out with
      | ok lat lon fmt =>
        simp [geocode_address, geocode_with_google]
      | fail e =>
        cases jp_out with
        | ok lat lon fmt =>
          simp [geocode_address, geocode_with_google,
            geocode_with_geocoding_jp]
        | fail e2 =>
          simp [geocode_address, geocode_with_google,
            geocode_with_geocoding_jp]

/-- Concrete pipeline instances: an empty zoning file map fails with an
error string, the empty simulation succeeds, a disabled search oracle
fails with an error string, and a keyless geocode whose fallback provider
also fails reports an error string. -/
theorem pipeline_results_carry_success_and_error_witness :
    (check_zoning_by_coordinates [] 0 0 none).error ≠ none ∧
    (run_simulation [] [] 0 [] 0 0).success = true ∧
    (estimate_price false all_invalid_level all_invalid_level
      all_invalid_level).1.error ≠ none ∧
    (geocode_address false (ProviderOutcome.fail "connection reset")
      (ProviderOutcome.fail "no match") "東京都新宿区").error ≠ none :=
  ⟨pipeline_results_carry_success_and_error.1 [] 0 0 none (by decide),
   pipeline_results_carry_success_and_error.2.1 [] [] 0 [] 0 0,
   pipeline_results_carry_success_and_error.2.2.1 false all_invalid_level
     all_invalid_level all_invalid_level (by decide),
   pipeline_results_carry_success_and_error.2.2.2 false
     (ProviderOutcome.fail "connection reset")
     (ProviderOutcome.fail "no match") "東京都新宿区" (by decide)⟩
